import Mathlib

/-!
Verification of the test-case-generator job orchestration state machine
(`src/backend/src/services/ai_service.py` and the pydantic models in
`src/backend/src/models/`), shallowly embedded in Lean 4.

Modelling conventions:
* `datetime` values are abstract instants, modelled as `Int` (only their
  ordering is observable in the code under verification); each call of
  `datetime.now()` in the source becomes an explicit time parameter.
* pydantic model construction is a validating constructor returning
  `Except String _`; an `Except.error` models a raised `ValidationError`.
* Collaborator calls (embedding service, vector DB, LLM client, GitHub
  client) are modelled by a `Collaborators` record giving the outcome of
  each call; `Except.error msg` models a raised exception with `str(e) = msg`.
-/

/-- Job status enum (`JobStatus` in `processing_job.py`). -/
inductive JobStatus where
  | PENDING
  | PROCESSING
  | COMPLETED
  | FAILED
  | SKIPPED
deriving DecidableEq, Repr

/-- Workflow stage enum (`WorkflowStage` in `processing_job.py`). -/
inductive WorkflowStage where
  | RECEIVE
  | RETRIEVE
  | GENERATE
  | COMMIT
  | CREATE_PR
  | FINALIZE
deriving DecidableEq, Repr

/-- Raw field record of the pydantic `ProcessingJob` model.  `retry_count`
is a `Nat`, which builds in the `ge=0` field bound; the remaining pydantic
validation is performed by `ProcessingJob.validate`. -/
structure ProcessingJob where
  job_id : String
  webhook_event_id : String
  status : JobStatus
  started_at : Int
  completed_at : Option Int
  error_message : Option String
  error_code : Option String
  retry_count : Nat
  retry_delays : List Int
  last_retry_at : Option Int
  idempotency_key : String
  current_stage : WorkflowStage
  correlation_id : String
deriving DecidableEq, Repr

namespace ProcessingJob

/-- Field bound `le=3` on `retry_count`. -/
def retry_count_ok (j : ProcessingJob) : Bool :=
  j.retry_count ≤ 3

/-- Field bounds `min_length=64, max_length=64` on `idempotency_key`. -/
def idempotency_key_ok (j : ProcessingJob) : Bool :=
  j.idempotency_key.length = 64

/-- Field validator `validate_completed_at_after_started_at`: when
`completed_at` is set it must be strictly after `started_at`. -/
def completed_at_ok (j : ProcessingJob) : Bool :=
  match j.completed_at with
  | none => true
  | some v => j.started_at < v

/-- Field validator `validate_error_message_for_failed_status`: when the
status is FAILED, `error_message` must be truthy (present and non-empty).
No constraint is placed on `error_code`, and no constraint applies to
non-FAILED statuses. -/
def error_message_ok (j : ProcessingJob) : Bool :=
  match j.status with
  | JobStatus.FAILED =>
      match j.error_message with
      | none => false
      | some m => m ≠ ""
  | _ => true

/-- Constructing a `ProcessingJob(...)` with every field explicitly
provided — as at every construction site in the source (pydantic runs field
validators only on provided values, and all call sites pass each field,
including explicit `None`s): the field bounds and the two field validators
run; on success the constructed object carries exactly the given fields,
otherwise a `ValidationError` is raised. -/
def validate (j : ProcessingJob) : Except String ProcessingJob :=
  if ¬ j.retry_count_ok then
    Except.error "retry_count must be less than or equal to 3"
  else if ¬ j.idempotency_key_ok then
    Except.error "idempotency_key must be 64 characters"
  else if ¬ j.completed_at_ok then
    Except.error "completed_at must be after started_at"
  else if ¬ j.error_message_ok then
    Except.error "error_message is required when status is FAILED"
  else
    Except.ok j

/-- A record satisfies all of the model's validation checks. -/
def Valid (j : ProcessingJob) : Bool :=
  j.retry_count_ok && j.idempotency_key_ok && j.completed_at_ok && j.error_message_ok

theorem validate_eq_ok_of_valid {j : ProcessingJob} (h : j.Valid = true) :
    j.validate = Except.ok j := by
  simp only [Valid, Bool.and_eq_true] at h
  simp [validate, h.1.1.1, h.1.1.2, h.1.2, h.2]

theorem valid_of_validate_eq_ok {j j' : ProcessingJob}
    (h : j.validate = Except.ok j') : j.Valid = true ∧ j' = j := by
  unfold validate at h
  split at h
  · exact Except.noConfusion h
  · split at h
    · exact Except.noConfusion h
    · split at h
      · exact Except.noConfusion h
      · split at h
        · exact Except.noConfusion h
        · rename_i h1 h2 h3 h4
          simp only [Bool.not_eq_true, not_not] at h1 h2 h3 h4
          simp only [Except.ok.injEq] at h
          refine ⟨?_, h.symm⟩
          simp [Valid]
          simp at h1 h2 h3 h4
          exact ⟨⟨⟨h1, h2⟩, h3⟩, h4⟩

end ProcessingJob

/-- Python `str.isspace`-class characters as matched by the regex class
`\s` used in the model validators: space, tab, newline, carriage return,
form feed, vertical tab. -/
def pyIsSpace (c : Char) : Bool :=
  c = ' ' || c = '\t' || c = '\n' || c = '\r' || c = Char.ofNat 12 || c = Char.ofNat 11

/-- Split a character list at every occurrence of a separator (the
semantics of `str.split(sep)`; an empty input yields one empty field). -/
def splitOnChar (sep : Char) : List Char → List (List Char)
  | [] => [[]]
  | c :: rest =>
      if c = sep then [] :: splitOnChar sep rest
      else
        match splitOnChar sep rest with
        | [] => [[c]]
        | l :: ls => (c :: l) :: ls

/-- Number of leading `#` characters of a line. -/
def countLeadingHashes : List Char → Nat
  | '#' :: r => countLeadingHashes r + 1
  | _ => 0

/-- One line matches `^#{1,6}\s+.+` : one to six `#` characters, then at
least one whitespace character, then at least one further character. -/
def isMarkdownHeadingLine (l : List Char) : Bool :=
  decide (1 ≤ countLeadingHashes l) && decide (countLeadingHashes l ≤ 6) &&
    (match l.drop (countLeadingHashes l) with
     | c :: _ :: _ => pyIsSpace c
     | _ => false)

/-- The `re.MULTILINE` search for `^#{1,6}\s+.+` over the content: some
line of the text is a Markdown heading line. -/
def containsMarkdownHeading (s : String) : Bool :=
  (splitOnChar (Char.ofNat 10) s.data).any isMarkdownHeadingLine

/-- A character of the regex class `\w` (ASCII reading): letter, digit or
underscore. -/
def isWordChar (c : Char) : Bool :=
  c.isAlphanum || c = '_'

/-- Match a literal prefix, returning the remaining characters. -/
def startsWithDrop : List Char → List Char → Option (List Char)
  | [], rest => some rest
  | _ :: _, [] => none
  | p :: ps, c :: cs => if c = p then startsWithDrop ps cs else none

/-- The pattern `^https://github\.com/[\w-]+/[\w.-]+/pull/\d+$` used by
`validate_pr_url_format`. -/
def isGithubPrUrl (s : String) : Bool :=
  match startsWithDrop "https://github.com/".data s.data with
  | none => false
  | some rest =>
      match splitOnChar '/' rest with
      | [owner, repo, pull, num] =>
          (match owner with
           | [] => false
           | _ => owner.all (fun c => isWordChar c || c = '-')) &&
          (match repo with
           | [] => false
           | _ => repo.all (fun c => isWordChar c || c = '.' || c = '-')) &&
          decide (pull = "pull".data) &&
          (match num with
           | [] => false
           | _ => num.all Char.isDigit)
      | _ => false

/-- Raw field record of the pydantic `TestCaseDocument` model.  The
`metadata` dict is modelled by its key list (its values are opaque `Any`
values never inspected by validation); `datetime` fields are abstract
instants. -/
structure TestCaseDocument where
  document_id : String
  issue_number : Nat
  title : String
  content : String
  metadata : List String
  branch_name : String
  pr_number : Option Nat
  pr_url : Option String
  generated_at : Int
  ai_model : String
  context_sources : List Nat
  correlation_id : String
deriving DecidableEq, Repr

namespace TestCaseDocument

/-- Field bound `gt=0` on `issue_number`. -/
def issue_number_ok (d : TestCaseDocument) : Bool :=
  0 < d.issue_number

/-- Field validator `validate_content_is_markdown`: content is non-blank
and contains at least one Markdown heading line. -/
def content_ok (d : TestCaseDocument) : Bool :=
  d.content.data.any (fun c => ¬ pyIsSpace c) && containsMarkdownHeading d.content

/-- Field validator `validate_metadata_required_fields`: the metadata dict
carries the keys `issue`, `generated_at`, `ai_model`, `context_sources`. -/
def metadata_ok (d : TestCaseDocument) : Bool :=
  ["issue", "generated_at", "ai_model", "context_sources"].all
    (fun k => d.metadata.contains k)

/-- Field validator `validate_branch_name_pattern`: branch name matches
`^test-cases/issue-\d+$`. -/
def branch_name_ok (d : TestCaseDocument) : Bool :=
  match startsWithDrop "test-cases/issue-".data d.branch_name.data with
  | none => false
  | some rest =>
      match rest with
      | [] => false
      | _ => rest.all Char.isDigit

/-- Field bound `gt=0` on `pr_number` (checked only when present). -/
def pr_number_ok (d : TestCaseDocument) : Bool :=
  match d.pr_number with
  | none => true
  | some n => 0 < n

/-- Field validator `validate_pr_url_format` (checked only when present). -/
def pr_url_ok (d : TestCaseDocument) : Bool :=
  match d.pr_url with
  | none => true
  | some u => isGithubPrUrl u

/-- Field validator `validate_pr_consistency`: rejects records where
exactly one of `pr_number`, `pr_url` is set. -/
def pr_consistency_ok (d : TestCaseDocument) : Bool :=
  match d.pr_number, d.pr_url with
  | none, some _ => false
  | some _, none => false
  | _, _ => true

/-- Constructing a `TestCaseDocument(...)` with every field explicitly
provided — as at the GENERATE construction site, which passes every field
including `pr_number=None, pr_url=None` (pydantic runs field validators
only on provided values): the field bounds and validators run in field
order; on success the constructed object carries exactly the given fields,
otherwise a `ValidationError` is raised. -/
def validate (d : TestCaseDocument) : Except String TestCaseDocument :=
  if ¬ d.issue_number_ok then
    Except.error "issue_number must be greater than 0"
  else if ¬ d.content_ok then
    Except.error "content must contain at least one Markdown heading"
  else if ¬ d.metadata_ok then
    Except.error "metadata missing required fields"
  else if ¬ d.branch_name_ok then
    Except.error "branch_name must match pattern test-cases/issue-N"
  else if ¬ d.pr_number_ok then
    Except.error "pr_number must be greater than 0"
  else if ¬ d.pr_url_ok then
    Except.error "pr_url must be a valid GitHub PR URL"
  else if ¬ d.pr_consistency_ok then
    Except.error "pr_number and pr_url must be consistent"
  else
    Except.ok d

/-- All validation checks of the model. -/
def Valid (d : TestCaseDocument) : Bool :=
  d.issue_number_ok && d.content_ok && d.metadata_ok && d.branch_name_ok &&
    d.pr_number_ok && d.pr_url_ok && d.pr_consistency_ok

theorem doc_validate_eq_ok_of_valid {d : TestCaseDocument} (h : d.Valid = true) :
    d.validate = Except.ok d := by
  simp only [Valid, Bool.and_eq_true] at h
  obtain ⟨⟨⟨⟨⟨⟨h1, h2⟩, h3⟩, h4⟩, h5⟩, h6⟩, h7⟩ := h
  simp [validate, h1, h2, h3, h4, h5, h6, h7]

theorem doc_valid_of_validate_eq_ok {d d' : TestCaseDocument}
    (h : d.validate = Except.ok d') : d.Valid = true ∧ d' = d := by
  unfold validate at h
  repeat' split at h
  any_goals exact Except.noConfusion h
  rename_i h1 h2 h3 h4 h5 h6 h7
  simp at h1 h2 h3 h4 h5 h6 h7
  simp only [Except.ok.injEq] at h
  simp only [Valid, Bool.and_eq_true]
  exact ⟨⟨⟨⟨⟨⟨⟨h1, h2⟩, h3⟩, h4⟩, h5⟩, h6⟩, h7⟩, h.symm⟩

end TestCaseDocument

/-- Metadata dict of one retrieved document: `issue_number` is the value of
its `issue_number` key, `none` when the key is absent (the code then
substitutes the string `unknown`, which `list[int]` parsing later rejects). -/
structure MetaEntry where
  issue_number : Option Nat
deriving DecidableEq, Repr

/-- Shape of the ChromaDB `query_similar` result dict: `documents` is a list
of per-query document lists, `metadatas` an optional parallel structure. -/
structure ChromaResults where
  documents : List (List String)
  metadatas : Option (List (List MetaEntry))
deriving DecidableEq, Repr

/-- One entry of the similar-documents list built by the RETRIEVE stage. -/
structure ContextDoc where
  content : String
  issue_number : Option Nat
deriving DecidableEq, Repr

/-- Outcome of one `llm_client.generate` call made under `asyncio.timeout`. -/
inductive LLMOutcome where
  | ok (content : String)
  | raised (msg : String)
  | timedOut
deriving DecidableEq, Repr

/-- Result dict of `github_client.create_pull_request`. -/
structure PullRequestInfo where
  number : Nat
  html_url : String
deriving DecidableEq, Repr

/-- The validated webhook event fields the workflow reads. -/
structure WebhookEvent where
  issue_number : Nat
  issue_title : String
  issue_body : String
  repository : String
deriving DecidableEq, Repr

/-- Behaviour of the collaborators during one workflow run.  Each field is
the outcome of the corresponding collaborator method; `Except.error msg`
models the call raising an exception with `str(e) = msg`.  The LLM client
may be called several times (by the retry helper), so its outcome is
indexed by the call number; every other call happens at most once per run. -/
structure Collaborators where
  generate_embedding : Except String Unit
  query_similar : Except String (Option ChromaResults)
  llm_generate : Nat → LLMOutcome
  get_repo : Except String String
  get_branch_sha : Except String String
  create_branch : Except String Unit
  create_or_update_file : Except String Unit
  create_pull_request : Except String PullRequestInfo
  add_issue_comment : Except String Unit

/-- The `AIService` configuration values read from `config` in `__init__`. -/
structure AIConfig where
  timeout : Nat
  model_name : String
  max_retries : Nat
  retry_delays : List Int
deriving DecidableEq, Repr

/-- The defaults of `__init__`: `LLAMA_TIMEOUT=120`, `LLAMA_MODEL`,
`MAX_RETRIES=3`, `RETRY_DELAYS=[5, 15, 45]`. -/
def defaultConfig : AIConfig :=
  { timeout := 120, model_name := "llama-3.2-11b", max_retries := 3,
    retry_delays := [5, 15, 45] }

/-- The nondeterministic inputs of one run drawn from the environment:
`uuid4()` for the document id and the `datetime.now()` instants at the
document build, the FINALIZE completion, and the failure snapshot in
`execute_workflow`. -/
structure RunEnv where
  doc_id : String
  gen_at : Int
  finalize_at : Int
  fail_at : Int
deriving DecidableEq, Repr

/-- Tags naming each collaborator call, used to log the calls a run makes. -/
inductive Call where
  | embed
  | query
  | llm
  | getRepo
  | getBranch
  | createBranch
  | commitFile
  | createPR
  | addComment
deriving DecidableEq, Repr

/-- The LangGraph `WorkflowState` (the `messages` log field is dropped:
nothing reads it). -/
structure WorkflowState where
  job : ProcessingJob
  context : Option (List ContextDoc)
  test_document : Option TestCaseDocument
  error : Option String
deriving DecidableEq, Repr

/-- Result of running one node (or a chain of nodes): the resulting state or
an escaped exception, the collaborator calls made, and the `ProcessingJob`
snapshots constructed. -/
instance {e a : Type} [DecidableEq e] [DecidableEq a] : DecidableEq (Except e a)
  | Except.ok x, Except.ok y =>
      match decEq x y with
      | Decidable.isTrue h => Decidable.isTrue (h ▸ rfl)
      | Decidable.isFalse h => Decidable.isFalse (fun hc => h (Except.ok.inj hc))
  | Except.ok _, Except.error _ => Decidable.isFalse (fun hc => Except.noConfusion hc)
  | Except.error _, Except.ok _ => Decidable.isFalse (fun hc => Except.noConfusion hc)
  | Except.error x, Except.error y =>
      match decEq x y with
      | Decidable.isTrue h => Decidable.isTrue (h ▸ rfl)
      | Decidable.isFalse h => Decidable.isFalse (fun hc => h (Except.error.inj hc))

structure StepOut where
  res : Except String WorkflowState
  calls : List Call
  jobs : List ProcessingJob
deriving DecidableEq, Repr

/-- Sequencing along a graph edge: the next node runs only when the previous
one returned a state; an escaped exception short-circuits the rest. -/
def seqStep (a : StepOut) (f : WorkflowState → StepOut) : StepOut :=
  match a.res with
  | Except.error e => { res := Except.error e, calls := a.calls, jobs := a.jobs }
  | Except.ok s =>
      let b := f s
      { res := b.res, calls := a.calls ++ b.calls, jobs := a.jobs ++ b.jobs }

/-- The loop `for i, doc_content in enumerate(documents)` with
`metadata = metadatas[i] if i < len(metadatas) else {}` and
`metadata.get('issue_number', 'unknown')`. -/
def buildSimilarDocs : List String → List MetaEntry → List ContextDoc
  | [], _ => []
  | d :: ds, [] => { content := d, issue_number := none } :: buildSimilarDocs ds []
  | d :: ds, m :: ms => { content := d, issue_number := m.issue_number } :: buildSimilarDocs ds ms

/-- Transformation of the ChromaDB result dict into the similar-documents
list (`_retrieve_node` / `retrieve_context`): requires a truthy result dict
with a non-empty `documents` list, takes its first entry, and pairs it with
the first `metadatas` entry when that key is truthy. -/
def extractSimilarDocs (results : Option ChromaResults) : List ContextDoc :=
  match results with
  | none => []
  | some r =>
      match r.documents with
      | [] => []
      | docs0 :: _ =>
          let metas0 :=
            match r.metadatas with
            | some (m :: _) => m
            | _ => []
          buildSimilarDocs docs0 metas0

/-- `PromptTemplate.render`: a pure, total function of the issue fields and
the context list.  The fixed Jinja2 template text is abstracted; only the
data dependency is kept.  The template guards its context block with
`{% if context and context|length > 0 %}` and `render` replaces a `None`
context by `[]`, so rendering never raises. -/
def render_prompt (issue_number : Nat) (issue_title issue_body : String)
    (context : List ContextDoc) : String :=
  "Issue #" ++ toString issue_number ++ ": " ++ issue_title ++ "\n" ++ issue_body ++ "\n"
    ++ String.intercalate "\n" (context.map (fun d => d.content.take 500))

/-- The job constructed by `_receive_node` / `receive_webhook`: every field
is copied from the input job except `status := PROCESSING`,
`current_stage := RETRIEVE`, and the cleared `completed_at`,
`error_message`, `error_code` (the source passes each field explicitly). -/
def receiveUpdate (j : ProcessingJob) : ProcessingJob :=
  { j with
    status := JobStatus.PROCESSING
    completed_at := none
    error_message := none
    error_code := none
    current_stage := WorkflowStage.RETRIEVE }

/-- Node 1 `_receive_node`: pure bookkeeping; constructs the updated job
through the pydantic validators and makes no collaborator calls. -/
def receive_node (s : WorkflowState) : StepOut :=
  match ProcessingJob.validate (receiveUpdate s.job) with
  | Except.error e => { res := Except.error e, calls := [], jobs := [] }
  | Except.ok j' => { res := Except.ok { s with job := j' }, calls := [], jobs := [j'] }

/-- Node 2 `_retrieve_node`: embeds the issue body and queries the vector DB
inside a `try/except Exception`; any exception is caught and its `str` is
recorded in `state["error"]`; a successful query stores the transformed
document list in `state["context"]`.  The node never raises and never
touches the job. -/
def retrieve_node (c : Collaborators) (s : WorkflowState) : StepOut :=
  match c.generate_embedding with
  | Except.error e =>
      { res := Except.ok { s with error := some e }, calls := [Call.embed], jobs := [] }
  | Except.ok _ =>
      match c.query_similar with
      | Except.error e =>
          { res := Except.ok { s with error := some e },
            calls := [Call.embed, Call.query], jobs := [] }
      | Except.ok results =>
          { res := Except.ok { s with context := some (extractSimilarDocs results) },
            calls := [Call.embed, Call.query], jobs := [] }

/-- pydantic parsing of `context_sources: list[int]`: fails when any entry
is the substituted string `unknown` instead of an int. -/
def seqSources : List (Option Nat) → Option (List Nat)
  | [] => some []
  | none :: _ => none
  | some n :: rest => (seqSources rest).map (fun l => n :: l)

/-- The `TestCaseDocument(...)` record built by the GENERATE stage. -/
def generatedDocument (cfg : AIConfig) (env : RunEnv) (ev : WebhookEvent)
    (content : String) (sources : List Nat) (corr : String) : TestCaseDocument :=
  { document_id := env.doc_id, issue_number := ev.issue_number,
    title := "Test Cases: " ++ ev.issue_title, content := content,
    metadata := ["issue", "generated_at", "ai_model", "context_sources"],
    branch_name := "test-cases/issue-" ++ toString ev.issue_number,
    pr_number := none, pr_url := none, generated_at := env.gen_at,
    ai_model := cfg.model_name, context_sources := sources,
    correlation_id := corr }

/-- Node 3 `_generate_node`: renders the prompt (`render_prompt`, a total
pure function whose output only feeds the LLM call, so the call is elided
here) and calls the LLM once under the configured timeout inside a `try`; a timeout or an exception is caught
and recorded in `state["error"]`.  On success the `TestCaseDocument` is
constructed outside the `try`, so a `ValidationError` there escapes the
node.  `state["context"]` may still be `None` (after a RETRIEVE failure);
both the renderer and the sources comprehension treat `None` like `[]`. -/
def generate_node (cfg : AIConfig) (env : RunEnv) (c : Collaborators)
    (ev : WebhookEvent) (s : WorkflowState) : StepOut :=
  match c.llm_generate 0 with
  | LLMOutcome.timedOut =>
      { res := Except.ok
          { s with error := some ("AI generation timeout after " ++ toString cfg.timeout ++ "s") },
        calls := [Call.llm], jobs := [] }
  | LLMOutcome.raised m =>
      { res := Except.ok { s with error := some ("AI generation failed: " ++ m) },
        calls := [Call.llm], jobs := [] }
  | LLMOutcome.ok content =>
      match seqSources ((s.context.getD []).map (fun d => d.issue_number)) with
      | none =>
          { res := Except.error "validation error for TestCaseDocument: context_sources",
            calls := [Call.llm], jobs := [] }
      | some sources =>
          match TestCaseDocument.validate
              (generatedDocument cfg env ev content sources s.job.correlation_id) with
          | Except.error e => { res := Except.error e, calls := [Call.llm], jobs := [] }
          | Except.ok doc =>
              { res := Except.ok { s with test_document := some doc },
                calls := [Call.llm], jobs := [] }

/-- The job constructed by `_commit_node`: all fields copied, status kept
(`status := job.status`), stage advanced to CREATE_PR. -/
def commitUpdate (j : ProcessingJob) : ProcessingJob :=
  { j with
    completed_at := none
    error_message := none
    error_code := none
    current_stage := WorkflowStage.CREATE_PR }

/-- Node 4 `_commit_node`: fetches the repo and the base branch sha, creates
the branch and commits the file; no `try`, so any collaborator exception
escapes.  The document attributes are first read when building the
`create_branch` arguments, after the two repo lookups, so a missing
document raises `AttributeError` at that point. -/
def commit_node (c : Collaborators) (_ev : WebhookEvent) (s : WorkflowState) : StepOut :=
  match c.get_repo with
  | Except.error e => { res := Except.error e, calls := [Call.getRepo], jobs := [] }
  | Except.ok _default_branch =>
      match c.get_branch_sha with
      | Except.error e =>
          { res := Except.error e, calls := [Call.getRepo, Call.getBranch], jobs := [] }
      | Except.ok _base_sha =>
          match s.test_document with
          | none =>
              { res := Except.error "AttributeError: NoneType object has no attribute branch_name",
                calls := [Call.getRepo, Call.getBranch], jobs := [] }
          | some _doc =>
              match c.create_branch with
              | Except.error e =>
                  { res := Except.error e,
                    calls := [Call.getRepo, Call.getBranch, Call.createBranch], jobs := [] }
              | Except.ok _ =>
                  match c.create_or_update_file with
                  | Except.error e =>
                      { res := Except.error e,
                        calls := [Call.getRepo, Call.getBranch, Call.createBranch, Call.commitFile],
                        jobs := [] }
                  | Except.ok _ =>
                      match ProcessingJob.validate (commitUpdate s.job) with
                      | Except.error e =>
                          { res := Except.error e,
                            calls := [Call.getRepo, Call.getBranch, Call.createBranch, Call.commitFile],
                            jobs := [] }
                      | Except.ok j' =>
                          { res := Except.ok { s with job := j' },
                            calls := [Call.getRepo, Call.getBranch, Call.createBranch, Call.commitFile],
                            jobs := [j'] }

/-- `model_copy(update={"pr_number": ..., "pr_url": ...})` in the CREATE_PR
stage: a field update that bypasses the pydantic validators. -/
def applyPrUpdate (d : TestCaseDocument) (pr : PullRequestInfo) : TestCaseDocument :=
  { d with
    pr_number := some pr.number
    pr_url := some pr.html_url }

/-- Node 5 `_create_pr_node`: builds the PR body (reading the document, so a
missing document raises `AttributeError` before any call), opens the PR (no
`try`: an exception escapes) and replaces the document with one carrying the
returned PR number and URL. -/
def create_pr_node (c : Collaborators) (s : WorkflowState) : StepOut :=
  match s.test_document with
  | none =>
      { res := Except.error "AttributeError: NoneType object has no attribute issue_number",
        calls := [], jobs := [] }
  | some doc =>
      match c.create_pull_request with
      | Except.error e => { res := Except.error e, calls := [Call.createPR], jobs := [] }
      | Except.ok pr =>
          { res := Except.ok { s with test_document := some (applyPrUpdate doc pr) },
            calls := [Call.createPR], jobs := [] }

/-- The job constructed by `_finalize_node`: status COMPLETED,
`completed_at = datetime.now()`, stage FINALIZE. -/
def finalizeUpdate (env : RunEnv) (j : ProcessingJob) : ProcessingJob :=
  { j with
    status := JobStatus.COMPLETED
    completed_at := some env.finalize_at
    error_message := none
    error_code := none
    current_stage := WorkflowStage.FINALIZE }

/-- Node 6 `_finalize_node`: builds the issue comment (reading the
document's `pr_url`, so a missing document raises `AttributeError` before
the call), posts it (no `try`), and constructs the COMPLETED job through
the validators (a `ValidationError`, e.g. `completed_at` not after
`started_at`, escapes). -/
def finalize_node (env : RunEnv) (c : Collaborators) (s : WorkflowState) : StepOut :=
  match s.test_document with
  | none =>
      { res := Except.error "AttributeError: NoneType object has no attribute pr_url",
        calls := [], jobs := [] }
  | some _doc =>
      match c.add_issue_comment with
      | Except.error e => { res := Except.error e, calls := [Call.addComment], jobs := [] }
      | Except.ok _ =>
          match ProcessingJob.validate (finalizeUpdate env s.job) with
          | Except.error e => { res := Except.error e, calls := [Call.addComment], jobs := [] }
          | Except.ok j' =>
              { res := Except.ok { s with job := j' }, calls := [Call.addComment], jobs := [j'] }

/-- The initial `WorkflowState` built at the top of `execute_workflow`. -/
def initialState (j : ProcessingJob) : WorkflowState :=
  { job := j, context := none, test_document := none, error := none }

/-- The tail of the graph after COMMIT: create_pr → finalize. -/
def graphAfterCommit (env : RunEnv) (c : Collaborators) (s4 : WorkflowState) : StepOut :=
  seqStep (create_pr_node c s4) (fun s5 =>
  finalize_node env c s5)

/-- The tail of the graph after GENERATE: commit → create_pr → finalize. -/
def graphAfterGenerate (env : RunEnv) (c : Collaborators) (ev : WebhookEvent)
    (s3 : WorkflowState) : StepOut :=
  seqStep (commit_node c ev s3) (graphAfterCommit env c)

/-- The tail of the graph after RETRIEVE. -/
def graphAfterRetrieve (cfg : AIConfig) (env : RunEnv) (c : Collaborators)
    (ev : WebhookEvent) (s2 : WorkflowState) : StepOut :=
  seqStep (generate_node cfg env c ev s2) (graphAfterGenerate env c ev)

/-- The tail of the graph after RECEIVE. -/
def graphAfterReceive (cfg : AIConfig) (env : RunEnv) (c : Collaborators)
    (ev : WebhookEvent) (s1 : WorkflowState) : StepOut :=
  seqStep (retrieve_node c s1) (graphAfterRetrieve cfg env c ev)

/-- `self.graph.ainvoke(initial_state)`: the compiled LangGraph is the fixed
linear chain receive → retrieve → generate → commit → create_pr → finalize
with no conditional edges, so a recorded `state["error"]` does not stop the
chain; only an escaped exception does. -/
def runGraph (cfg : AIConfig) (env : RunEnv) (c : Collaborators)
    (ev : WebhookEvent) (j : ProcessingJob) : StepOut :=
  seqStep (receive_node (initialState j)) (graphAfterReceive cfg env c ev)

/-- The FAILED snapshot built in `execute_workflow`: every identity field is
taken from the original `job` argument — including `current_stage` and the
retry fields — with `completed_at = datetime.now()`. -/
def failJob (env : RunEnv) (j : ProcessingJob) (msg code : String) : ProcessingJob :=
  { j with
    status := JobStatus.FAILED
    completed_at := some env.fail_at
    error_message := some msg
    error_code := some code }

/-- Result of `execute_workflow`: the returned job, or `Except.error` when
an exception escapes the method itself (e.g. the `ValidationError` raised
while building the FAILED snapshot); plus the call log and all job
snapshots constructed during the run. -/
structure WorkflowOut where
  result : Except String ProcessingJob
  calls : List Call
  jobs : List ProcessingJob
deriving DecidableEq, Repr

/-- `AIService.execute_workflow`: runs the graph; if the final state carries
a truthy `error` the job is marked FAILED with the fixed code `E301`; an
exception during graph execution yields a FAILED job with the fixed code
`E300`; otherwise the job from the final state is returned.  Both failure
snapshots are built from the original `job` argument and go through the
pydantic validators.  The E301 snapshot is constructed inside the `try`, so
a `ValidationError` there is caught by `except Exception` and converted to
the E300 snapshot (with the validation message as `str(e)`); the E300
snapshot is constructed inside the `except` handler, so its own
`ValidationError` escapes to the caller. -/
def execute_workflow (cfg : AIConfig) (env : RunEnv) (c : Collaborators)
    (ev : WebhookEvent) (job : ProcessingJob) : WorkflowOut :=
  match (runGraph cfg env c ev job).res with
  | Except.error e =>
      match ProcessingJob.validate (failJob env job e "E300") with
      | Except.error ve =>
          { result := Except.error ve, calls := (runGraph cfg env c ev job).calls,
            jobs := (runGraph cfg env c ev job).jobs }
      | Except.ok fj =>
          { result := Except.ok fj, calls := (runGraph cfg env c ev job).calls,
            jobs := (runGraph cfg env c ev job).jobs ++ [fj] }
  | Except.ok fs =>
      match fs.error with
      | some e =>
          if e = "" then
            { result := Except.ok fs.job, calls := (runGraph cfg env c ev job).calls,
              jobs := (runGraph cfg env c ev job).jobs }
          else
            match ProcessingJob.validate (failJob env job e "E301") with
            | Except.error ve =>
                match ProcessingJob.validate (failJob env job ve "E300") with
                | Except.error ve2 =>
                    { result := Except.error ve2, calls := (runGraph cfg env c ev job).calls,
                      jobs := (runGraph cfg env c ev job).jobs }
                | Except.ok fj =>
                    { result := Except.ok fj, calls := (runGraph cfg env c ev job).calls,
                      jobs := (runGraph cfg env c ev job).jobs ++ [fj] }
            | Except.ok fj =>
                { result := Except.ok fj, calls := (runGraph cfg env c ev job).calls,
                  jobs := (runGraph cfg env c ev job).jobs ++ [fj] }
      | none =>
          { result := Except.ok fs.job, calls := (runGraph cfg env c ev job).calls,
            jobs := (runGraph cfg env c ev job).jobs }

/-- The exception classes that can leave `generate_test_cases`:
`AITimeoutError` (E302), `AIGenerationError` (E301, carrying the message
passed to its constructor), or any other escaped exception (e.g. the
pydantic `ValidationError` from building the document).  `AITimeoutError`
and `AIGenerationError` are sibling subclasses of
`TestCaseGeneratorException`; neither is a subclass of the other. -/
inductive GenExn where
  | timeout (seconds : Nat)
  | genError (msg : String)
  | otherExn (msg : String)
deriving DecidableEq, Repr

/-- `AIService.generate_test_cases` (the public GENERATE step used by the
retry helper): renders the prompt (elided, as in `generate_node`), makes
one LLM call under the timeout;
`asyncio.TimeoutError` is re-raised as `AITimeoutError(timeout_seconds)`
and any other exception as `AIGenerationError`; on success the document is
built outside the `try`, so its `ValidationError` escapes as-is.
`attempt` indexes which LLM call of the run this is. -/
def generate_test_cases (cfg : AIConfig) (env : RunEnv) (c : Collaborators)
    (ev : WebhookEvent) (context : List ContextDoc) (corr : String)
    (attempt : Nat) : Except GenExn TestCaseDocument :=
  match c.llm_generate attempt with
  | LLMOutcome.timedOut => Except.error (GenExn.timeout cfg.timeout)
  | LLMOutcome.raised m => Except.error (GenExn.genError ("AI generation failed: " ++ m))
  | LLMOutcome.ok content =>
      match seqSources (context.map (fun d => d.issue_number)) with
      | none => Except.error (GenExn.otherExn "validation error for TestCaseDocument: context_sources")
      | some sources =>
          match TestCaseDocument.validate (generatedDocument cfg env ev content sources corr) with
          | Except.error e => Except.error (GenExn.otherExn e)
          | Except.ok d => Except.ok d

/-- `self.retry_delays[attempt] if attempt < len(self.retry_delays) else
self.retry_delays[-1]`; `none` models the `IndexError` that `[-1]` raises
on an empty configured list. -/
def clampedDelay (delays : List Int) (attempt : Nat) : Option Int :=
  if attempt < delays.length then delays.get? attempt else delays.getLast?

/-- The value the clamped lookup yields on a non-empty configured list:
`retry_delays[attempt]` within bounds, the last configured delay
`retry_delays[-1]` past the end. -/
def clampedVal (delays : List Int) (attempt : Nat) : Int :=
  if attempt < delays.length then delays.getD attempt 0
  else (delays.getLast?).getD 0

/-- The job rebuilt inside the `except AIGenerationError` handler of
`generate_with_retries`: all fields copied except `retry_count := attempt + 1`
and `last_retry_at := datetime.now()` (and the cleared completion/error
fields, passed as `None`). -/
def retryUpdate (j : ProcessingJob) (attempt : Nat) (t : Int) : ProcessingJob :=
  { j with
    completed_at := none
    error_message := none
    error_code := none
    retry_count := attempt + 1
    last_retry_at := some t }

/-- Observable outcome of one `generate_with_retries` call: its result (a
document, or the exception that leaves the method), the backoff sleeps
performed in order, the job snapshots built in the retry handler in order,
and the number of LLM calls made. -/
structure RetryTrace where
  result : Except GenExn TestCaseDocument
  sleeps : List Int
  jobs : List ProcessingJob
  llmCalls : Nat
deriving DecidableEq, Repr

/-- The loop `for attempt in range(retries)` of `generate_with_retries`,
from a given attempt index with `remaining` iterations left.  Only
`AIGenerationError` is caught: a timeout or any other exception escapes at
once.  After a caught failure the job is rebuilt (`retry_count = attempt+1`,
`last_retry_at = now`) through the validators — whose `ValidationError`
would escape — and, when further attempts remain, the loop sleeps the
clamped configured delay.  When the loop ends, the stored last error (or a
fresh `AIGenerationError` if none) is raised.  `rt n` is the
`datetime.now()` instant of the handler for attempt `n`. -/
def generateWithRetriesAux (cfg : AIConfig) (env : RunEnv) (c : Collaborators)
    (ev : WebhookEvent) (context : List ContextDoc) (corr : String)
    (rt : Nat → Int) : Nat → ProcessingJob → Nat → Option GenExn → RetryTrace
  | _attempt, _job, 0, lastErr =>
      { result := Except.error (match lastErr with
          | some e => e
          | none => GenExn.genError "All retries exhausted without error")
        sleeps := []
        jobs := []
        llmCalls := 0 }
  | attempt, job, remaining + 1, _lastErr =>
      match generate_test_cases cfg env c ev context corr attempt with
      | Except.ok d => { result := Except.ok d, sleeps := [], jobs := [], llmCalls := 1 }
      | Except.error (GenExn.genError m) =>
          match ProcessingJob.validate (retryUpdate job attempt (rt attempt)) with
          | Except.error ve =>
              { result := Except.error (GenExn.otherExn ve), sleeps := [], jobs := [], llmCalls := 1 }
          | Except.ok job' =>
              if remaining = 0 then
                { result := Except.error (GenExn.genError m)
                  sleeps := []
                  jobs := [job']
                  llmCalls := 1 }
              else
                match clampedDelay cfg.retry_delays attempt with
                | none =>
                    { result := Except.error (GenExn.otherExn "IndexError: list index out of range")
                      sleeps := []
                      jobs := [job']
                      llmCalls := 1 }
                | some d =>
                    let rest := generateWithRetriesAux cfg env c ev context corr rt
                      (attempt + 1) job' remaining (some (GenExn.genError m))
                    { result := rest.result
                      sleeps := d :: rest.sleeps
                      jobs := job' :: rest.jobs
                      llmCalls := rest.llmCalls + 1 }
      | Except.error e =>
          { result := Except.error e, sleeps := [], jobs := [], llmCalls := 1 }

/-- `AIService.generate_with_retries`: `retries = max_retries if max_retries
is not None else self.max_retries`, then the retry loop from attempt 0. -/
def generate_with_retries (cfg : AIConfig) (env : RunEnv) (c : Collaborators)
    (ev : WebhookEvent) (context : List ContextDoc) (corr : String)
    (rt : Nat → Int) (job : ProcessingJob) (max_retries : Option Nat) : RetryTrace :=
  let retries := match max_retries with
    | some r => r
    | none => cfg.max_retries
  generateWithRetriesAux cfg env c ev context corr rt 0 job retries none

theorem seqStep_of_res_error {a : StepOut} {f : WorkflowState → StepOut} {e : String}
    (h : a.res = Except.error e) :
    seqStep a f = { res := Except.error e, calls := a.calls, jobs := a.jobs } := by
  unfold seqStep
  rw [h]

theorem seqStep_of_res_ok {a : StepOut} {f : WorkflowState → StepOut} {s' : WorkflowState}
    (h : a.res = Except.ok s') :
    seqStep a f =
      { res := (f s').res, calls := a.calls ++ (f s').calls, jobs := a.jobs ++ (f s').jobs } := by
  unfold seqStep
  rw [h]

/-- `_receive_node` either returns the state with the receive-updated job
(recording that single snapshot), or raises the `ValidationError` of the
job constructor (recording nothing). -/
theorem receive_node_shape (s : WorkflowState) :
    ((receive_node s).res = Except.ok { s with job := receiveUpdate s.job } ∧
      (receive_node s).calls = [] ∧ (receive_node s).jobs = [receiveUpdate s.job]) ∨
    ((∃ e, (receive_node s).res = Except.error e) ∧ (receive_node s).jobs = []) := by
  unfold receive_node
  cases hv : ProcessingJob.validate (receiveUpdate s.job) with
  | error e => exact Or.inr ⟨⟨e, rfl⟩, rfl⟩
  | ok j' =>
      obtain ⟨-, rfl⟩ := ProcessingJob.valid_of_validate_eq_ok hv
      exact Or.inl ⟨rfl, rfl, rfl⟩

/-- `_retrieve_node` never raises, never touches the job or the document,
and records no snapshot. -/
theorem retrieve_node_shape (c : Collaborators) (s : WorkflowState) :
    (retrieve_node c s).jobs = [] ∧
    ∃ s', (retrieve_node c s).res = Except.ok s' ∧ s'.job = s.job ∧
      s'.test_document = s.test_document := by
  unfold retrieve_node
  cases c.generate_embedding with
  | error e => exact ⟨rfl, _, rfl, rfl, rfl⟩
  | ok u =>
      cases c.query_similar with
      | error e => exact ⟨rfl, _, rfl, rfl, rfl⟩
      | ok r => exact ⟨rfl, _, rfl, rfl, rfl⟩

/-- `_generate_node` makes exactly one LLM call, records no snapshot, and on
a non-raising outcome leaves the job unchanged. -/
theorem generate_node_shape (cfg : AIConfig) (env : RunEnv) (c : Collaborators)
    (ev : WebhookEvent) (s : WorkflowState) :
    (generate_node cfg env c ev s).jobs = [] ∧
    (generate_node cfg env c ev s).calls = [Call.llm] ∧
    ((∃ e, (generate_node cfg env c ev s).res = Except.error e) ∨
      ∃ s', (generate_node cfg env c ev s).res = Except.ok s' ∧ s'.job = s.job) := by
  cases hl : c.llm_generate 0 with
  | timedOut =>
      refine ⟨?_, ?_, Or.inr
        ⟨{ s with error := some ("AI generation timeout after " ++ toString cfg.timeout ++ "s") },
          ?_, rfl⟩⟩ <;> simp [generate_node, hl]
  | raised m =>
      refine ⟨?_, ?_, Or.inr ⟨{ s with error := some ("AI generation failed: " ++ m) }, ?_, rfl⟩⟩ <;>
        simp [generate_node, hl]
  | ok content =>
      cases hs : seqSources ((s.context.getD []).map (fun d => d.issue_number)) with
      | none =>
          refine ⟨?_, ?_, Or.inl ⟨"validation error for TestCaseDocument: context_sources", ?_⟩⟩ <;>
            simp [generate_node, hl, hs]
      | some sources =>
          cases hv : TestCaseDocument.validate
              (generatedDocument cfg env ev content sources s.job.correlation_id) with
          | error e => refine ⟨?_, ?_, Or.inl ⟨e, ?_⟩⟩ <;> simp [generate_node, hl, hs, hv]
          | ok doc =>
              refine ⟨?_, ?_, Or.inr ⟨{ s with test_document := some doc }, ?_, rfl⟩⟩ <;>
                simp [generate_node, hl, hs, hv]

/-- `_commit_node` either returns the state with the commit-updated job
(recording that single snapshot), or raises (recording nothing). -/
theorem commit_node_shape (c : Collaborators) (ev : WebhookEvent) (s : WorkflowState) :
    ((commit_node c ev s).res = Except.ok { s with job := commitUpdate s.job } ∧
      (commit_node c ev s).jobs = [commitUpdate s.job]) ∨
    ((∃ e, (commit_node c ev s).res = Except.error e) ∧ (commit_node c ev s).jobs = []) := by
  unfold commit_node
  cases c.get_repo with
  | error e => exact Or.inr ⟨⟨e, rfl⟩, rfl⟩
  | ok db =>
      cases c.get_branch_sha with
      | error e => exact Or.inr ⟨⟨e, rfl⟩, rfl⟩
      | ok sha =>
          cases s.test_document with
          | none => exact Or.inr ⟨⟨_, rfl⟩, rfl⟩
          | some doc =>
              cases c.create_branch with
              | error e => exact Or.inr ⟨⟨e, rfl⟩, rfl⟩
              | ok u =>
                  cases c.create_or_update_file with
                  | error e => exact Or.inr ⟨⟨e, rfl⟩, rfl⟩
                  | ok u2 =>
                      cases hv : ProcessingJob.validate (commitUpdate s.job) with
                      | error e => exact Or.inr ⟨⟨e, rfl⟩, rfl⟩
                      | ok j' =>
                          obtain ⟨-, rfl⟩ := ProcessingJob.valid_of_validate_eq_ok hv
                          exact Or.inl ⟨rfl, rfl⟩

/-- `_create_pr_node` records no snapshot and on success leaves the job
unchanged. -/
theorem create_pr_node_shape (c : Collaborators) (s : WorkflowState) :
    (create_pr_node c s).jobs = [] ∧
    ((∃ e, (create_pr_node c s).res = Except.error e) ∨
      ∃ s', (create_pr_node c s).res = Except.ok s' ∧ s'.job = s.job) := by
  unfold create_pr_node
  cases s.test_document with
  | none => exact ⟨rfl, Or.inl ⟨_, rfl⟩⟩
  | some doc =>
      cases c.create_pull_request with
      | error e => exact ⟨rfl, Or.inl ⟨e, rfl⟩⟩
      | ok pr => exact ⟨rfl, Or.inr ⟨_, rfl, rfl⟩⟩

/-- `_finalize_node` either returns the state with the COMPLETED job
(recording that single snapshot), or raises (recording nothing). -/
theorem finalize_node_shape (env : RunEnv) (c : Collaborators) (s : WorkflowState) :
    ((finalize_node env c s).res = Except.ok { s with job := finalizeUpdate env s.job } ∧
      (finalize_node env c s).jobs = [finalizeUpdate env s.job]) ∨
    ((∃ e, (finalize_node env c s).res = Except.error e) ∧ (finalize_node env c s).jobs = []) := by
  unfold finalize_node
  cases s.test_document with
  | none => exact Or.inr ⟨⟨_, rfl⟩, rfl⟩
  | some doc =>
      cases c.add_issue_comment with
      | error e => exact Or.inr ⟨⟨e, rfl⟩, rfl⟩
      | ok u =>
          cases hv : ProcessingJob.validate (finalizeUpdate env s.job) with
          | error e => exact Or.inr ⟨⟨e, rfl⟩, rfl⟩
          | ok j' =>
              obtain ⟨-, rfl⟩ := ProcessingJob.valid_of_validate_eq_ok hv
              exact Or.inl ⟨rfl, rfl⟩

/-- Running create_pr → finalize from a state either completes with the
finalize-updated job (one snapshot) or raises (no snapshot). -/
theorem graphAfterCommit_cases (env : RunEnv) (c : Collaborators) (s4 : WorkflowState) :
    (∃ fs, (graphAfterCommit env c s4).res = Except.ok fs ∧
      fs.job = finalizeUpdate env s4.job ∧
      (graphAfterCommit env c s4).jobs = [finalizeUpdate env s4.job]) ∨
    ((∃ e, (graphAfterCommit env c s4).res = Except.error e) ∧
      (graphAfterCommit env c s4).jobs = []) := by
  obtain ⟨hj, herr | ⟨s5, hres, hjob⟩⟩ := create_pr_node_shape c s4
  · obtain ⟨e, he⟩ := herr
    right
    unfold graphAfterCommit
    rw [seqStep_of_res_error he]
    exact ⟨⟨e, rfl⟩, hj⟩
  · unfold graphAfterCommit
    rw [seqStep_of_res_ok hres]
    obtain ⟨hfr, hfj⟩ | ⟨⟨e, he⟩, hfj⟩ := finalize_node_shape env c s5
    · left
      refine ⟨{ s5 with job := finalizeUpdate env s5.job }, ?_, ?_, ?_⟩
      · simpa using hfr
      · simp [hjob]
      · simp [hj, hfj, hjob]
    · right
      exact ⟨⟨e, by simpa using he⟩, by simp [hj, hfj]⟩

/-- Running commit → create_pr → finalize from a state: on completion the
job is the finalize-update of the commit-update, with the two snapshots in
order; on an escaped exception at most the commit snapshot was recorded. -/
theorem graphAfterGenerate_cases (env : RunEnv) (c : Collaborators) (ev : WebhookEvent)
    (s3 : WorkflowState) :
    (∃ fs, (graphAfterGenerate env c ev s3).res = Except.ok fs ∧
      fs.job = finalizeUpdate env (commitUpdate s3.job) ∧
      (graphAfterGenerate env c ev s3).jobs =
        [commitUpdate s3.job, finalizeUpdate env (commitUpdate s3.job)]) ∨
    ((∃ e, (graphAfterGenerate env c ev s3).res = Except.error e) ∧
      ((graphAfterGenerate env c ev s3).jobs = [] ∨
       (graphAfterGenerate env c ev s3).jobs = [commitUpdate s3.job])) := by
  obtain ⟨hcr, hcj⟩ | ⟨⟨e, he⟩, hcj⟩ := commit_node_shape c ev s3
  · unfold graphAfterGenerate
    rw [seqStep_of_res_ok hcr]
    obtain ⟨fs, hres, hjob, hjobs⟩ | ⟨⟨e, he⟩, hjobs⟩ :=
      graphAfterCommit_cases env c { s3 with job := commitUpdate s3.job }
    · left
      exact ⟨fs, by simpa using hres, by simpa using hjob, by simp [hcj, hjobs]⟩
    · right
      exact ⟨⟨e, by simpa using he⟩, Or.inr (by simp [hcj, hjobs])⟩
  · unfold graphAfterGenerate
    rw [seqStep_of_res_error he]
    right
    exact ⟨⟨e, rfl⟩, Or.inl (by simp [hcj])⟩

/-- Running generate → commit → create_pr → finalize from a state. -/
theorem graphAfterRetrieve_cases (cfg : AIConfig) (env : RunEnv) (c : Collaborators)
    (ev : WebhookEvent) (s2 : WorkflowState) :
    (∃ fs, (graphAfterRetrieve cfg env c ev s2).res = Except.ok fs ∧
      fs.job = finalizeUpdate env (commitUpdate s2.job) ∧
      (graphAfterRetrieve cfg env c ev s2).jobs =
        [commitUpdate s2.job, finalizeUpdate env (commitUpdate s2.job)]) ∨
    ((∃ e, (graphAfterRetrieve cfg env c ev s2).res = Except.error e) ∧
      ((graphAfterRetrieve cfg env c ev s2).jobs = [] ∨
       (graphAfterRetrieve cfg env c ev s2).jobs = [commitUpdate s2.job])) := by
  obtain ⟨hgj, hgc, herr | ⟨s3, hres, hjob⟩⟩ := generate_node_shape cfg env c ev s2
  case intro.intro.inl =>
    obtain ⟨e, he⟩ := herr
    right
    unfold graphAfterRetrieve
    rw [seqStep_of_res_error he]
    exact ⟨⟨e, rfl⟩, Or.inl (by simp [hgj])⟩
  case intro.intro.inr =>
    unfold graphAfterRetrieve
    rw [seqStep_of_res_ok hres]
    obtain ⟨fs, hres2, hjob2, hjobs2⟩ | ⟨⟨e, he⟩, hjobs2⟩ := graphAfterGenerate_cases env c ev s3
    · left
      refine ⟨fs, by simpa using hres2, ?_, ?_⟩
      · rw [hjob2, hjob]
      · simp [hgj, hjobs2, hjob]
    · right
      refine ⟨⟨e, by simpa using he⟩, ?_⟩
      rcases hjobs2 with h0 | h1
      · exact Or.inl (by simp [hgj, h0])
      · exact Or.inr (by simp [hgj, h1, hjob])

/-- Running retrieve → … → finalize from a state (RETRIEVE itself never
raises and never touches the job). -/
theorem graphAfterReceive_cases (cfg : AIConfig) (env : RunEnv) (c : Collaborators)
    (ev : WebhookEvent) (s1 : WorkflowState) :
    (∃ fs, (graphAfterReceive cfg env c ev s1).res = Except.ok fs ∧
      fs.job = finalizeUpdate env (commitUpdate s1.job) ∧
      (graphAfterReceive cfg env c ev s1).jobs =
        [commitUpdate s1.job, finalizeUpdate env (commitUpdate s1.job)]) ∨
    ((∃ e, (graphAfterReceive cfg env c ev s1).res = Except.error e) ∧
      ((graphAfterReceive cfg env c ev s1).jobs = [] ∨
       (graphAfterReceive cfg env c ev s1).jobs = [commitUpdate s1.job])) := by
  obtain ⟨hrj, s2, hres, hjob, -⟩ := retrieve_node_shape c s1
  unfold graphAfterReceive
  rw [seqStep_of_res_ok hres]
  obtain ⟨fs, hres2, hjob2, hjobs2⟩ | ⟨⟨e, he⟩, hjobs2⟩ := graphAfterRetrieve_cases cfg env c ev s2
  · left
    refine ⟨fs, by simpa using hres2, ?_, ?_⟩
    · rw [hjob2, hjob]
    · simp [hrj, hjobs2, hjob]
  · right
    refine ⟨⟨e, by simpa using he⟩, ?_⟩
    rcases hjobs2 with h0 | h1
    · exact Or.inl (by simp [hrj, h0])
    · exact Or.inr (by simp [hrj, h1, hjob])

/-- The full graph run from a job: on completion the final state's job is
`finalizeUpdate (commitUpdate (receiveUpdate j))` and exactly the three
snapshots were recorded in stage order; on an escaped exception the
snapshots are a proper prefix of those three. -/
theorem runGraph_cases (cfg : AIConfig) (env : RunEnv) (c : Collaborators)
    (ev : WebhookEvent) (j : ProcessingJob) :
    (∃ fs, (runGraph cfg env c ev j).res = Except.ok fs ∧
      fs.job = finalizeUpdate env (commitUpdate (receiveUpdate j)) ∧
      (runGraph cfg env c ev j).jobs =
        [receiveUpdate j, commitUpdate (receiveUpdate j),
          finalizeUpdate env (commitUpdate (receiveUpdate j))]) ∨
    ((∃ e, (runGraph cfg env c ev j).res = Except.error e) ∧
      ((runGraph cfg env c ev j).jobs = [] ∨
       (runGraph cfg env c ev j).jobs = [receiveUpdate j] ∨
       (runGraph cfg env c ev j).jobs = [receiveUpdate j, commitUpdate (receiveUpdate j)])) := by
  obtain ⟨hres, hcalls, hjobs⟩ | ⟨⟨e, he⟩, hjobs⟩ := receive_node_shape (initialState j)
  · have hres' : (receive_node (initialState j)).res = Except.ok
        { job := receiveUpdate j, context := none, test_document := none, error := none } := hres
    have hjobs' : (receive_node (initialState j)).jobs = [receiveUpdate j] := hjobs
    unfold runGraph
    rw [seqStep_of_res_ok hres']
    obtain ⟨fs, hres2, hjob2, hjobs2⟩ | ⟨⟨e, he⟩, hjobs2⟩ :=
      graphAfterReceive_cases cfg env c ev
        { job := receiveUpdate j, context := none, test_document := none, error := none }
    · left
      exact ⟨fs, by simpa using hres2, by simpa using hjob2, by simp [hjobs', hjobs2]⟩
    · right
      refine ⟨⟨e, by simpa using he⟩, ?_⟩
      rcases hjobs2 with h0 | h1
      · exact Or.inr (Or.inl (by simp [hjobs', h0]))
      · exact Or.inr (Or.inr (by simp [hjobs', h1]))
  · unfold runGraph
    rw [seqStep_of_res_error he]
    exact Or.inr ⟨⟨e, rfl⟩, Or.inl hjobs⟩

/-- The identity and provenance fields of a job: `job_id`,
`webhook_event_id`, `started_at`, `idempotency_key`, `correlation_id`,
`retry_delays`. -/
def SameIdentity (a b : ProcessingJob) : Prop :=
  a.job_id = b.job_id ∧ a.webhook_event_id = b.webhook_event_id ∧
  a.started_at = b.started_at ∧ a.idempotency_key = b.idempotency_key ∧
  a.correlation_id = b.correlation_id ∧ a.retry_delays = b.retry_delays

theorem sameIdentity_refl (j : ProcessingJob) : SameIdentity j j :=
  ⟨rfl, rfl, rfl, rfl, rfl, rfl⟩

theorem sameIdentity_trans {a b c : ProcessingJob}
    (h1 : SameIdentity a b) (h2 : SameIdentity b c) : SameIdentity a c := by
  obtain ⟨x1, x2, x3, x4, x5, x6⟩ := h1
  obtain ⟨y1, y2, y3, y4, y5, y6⟩ := h2
  exact ⟨x1.trans y1, x2.trans y2, x3.trans y3, x4.trans y4, x5.trans y5, x6.trans y6⟩

theorem receiveUpdate_sameIdentity (j : ProcessingJob) : SameIdentity (receiveUpdate j) j :=
  ⟨rfl, rfl, rfl, rfl, rfl, rfl⟩

theorem commitUpdate_sameIdentity (j : ProcessingJob) : SameIdentity (commitUpdate j) j :=
  ⟨rfl, rfl, rfl, rfl, rfl, rfl⟩

theorem finalizeUpdate_sameIdentity (env : RunEnv) (j : ProcessingJob) :
    SameIdentity (finalizeUpdate env j) j :=
  ⟨rfl, rfl, rfl, rfl, rfl, rfl⟩

theorem failJob_sameIdentity (env : RunEnv) (j : ProcessingJob) (msg code : String) :
    SameIdentity (failJob env j msg code) j :=
  ⟨rfl, rfl, rfl, rfl, rfl, rfl⟩

theorem retryUpdate_sameIdentity (j : ProcessingJob) (a : Nat) (t : Int) :
    SameIdentity (retryUpdate j a t) j :=
  ⟨rfl, rfl, rfl, rfl, rfl, rfl⟩

theorem receiveUpdate_valid {j : ProcessingJob} (h : j.Valid = true) :
    (receiveUpdate j).Valid = true := by
  simp only [ProcessingJob.Valid, Bool.and_eq_true] at h ⊢
  refine ⟨⟨⟨h.1.1.1, h.1.1.2⟩, ?_⟩, ?_⟩ <;> rfl

theorem failJob_valid {env : RunEnv} {j : ProcessingJob} {msg code : String}
    (h : j.Valid = true) (ht : j.started_at < env.fail_at) (hm : msg ≠ "") :
    (failJob env j msg code).Valid = true := by
  simp only [ProcessingJob.Valid, Bool.and_eq_true] at h ⊢
  refine ⟨⟨⟨h.1.1.1, h.1.1.2⟩, ?_⟩, ?_⟩
  · simp only [ProcessingJob.completed_at_ok, failJob]
    exact decide_eq_true ht
  · simp only [ProcessingJob.error_message_ok, failJob]
    exact decide_eq_true hm

theorem retryUpdate_valid {j : ProcessingJob} {a : Nat} {t : Int}
    (hkey : j.idempotency_key.length = 64) (hst : j.status ≠ JobStatus.FAILED)
    (hcount : a + 1 ≤ 3) : (retryUpdate j a t).Valid = true := by
  simp only [ProcessingJob.Valid, Bool.and_eq_true]
  refine ⟨⟨⟨?_, ?_⟩, ?_⟩, ?_⟩
  · simp only [ProcessingJob.retry_count_ok, retryUpdate]
    exact decide_eq_true hcount
  · simp only [ProcessingJob.idempotency_key_ok, retryUpdate]
    exact decide_eq_true hkey
  · rfl
  · cases hs : j.status
    case FAILED => exact absurd hs hst
    all_goals simp [ProcessingJob.error_message_ok, retryUpdate, hs]

/-- Any FAILED job returned by `execute_workflow` is one of the two failure
snapshots built from the original argument job: its `error_code` is the
fixed `E301` or `E300`, its `current_stage`, `retry_count` and
`retry_delays` are the original job's, and `completed_at` is the failure
instant. -/
theorem execute_workflow_failed_shape {cfg : AIConfig} {env : RunEnv} {c : Collaborators}
    {ev : WebhookEvent} {j jf : ProcessingJob}
    (hres : (execute_workflow cfg env c ev j).result = Except.ok jf)
    (hfail : jf.status = JobStatus.FAILED) :
    (jf.error_code = some "E301" ∨ jf.error_code = some "E300") ∧
    jf.current_stage = j.current_stage ∧
    jf.completed_at = some env.fail_at ∧
    jf.retry_count = j.retry_count ∧
    jf.retry_delays = j.retry_delays := by
  unfold execute_workflow at hres
  rcases runGraph_cases cfg env c ev j with ⟨fs, hg, hjob, -⟩ | ⟨⟨e, hg⟩, -⟩
  · simp only [hg] at hres
    cases herr : fs.error with
    | none =>
        simp only [herr] at hres
        cases hres
        rw [hjob] at hfail
        exact absurd hfail (by simp [finalizeUpdate])
    | some e =>
        by_cases he : e = ""
        · simp only [herr, he, if_pos] at hres
          cases hres
          rw [hjob] at hfail
          exact absurd hfail (by simp [finalizeUpdate])
        · simp only [herr, if_neg he] at hres
          cases hv : ProcessingJob.validate (failJob env j e "E301") with
          | error ve =>
              simp only [hv] at hres
              cases hv2 : ProcessingJob.validate (failJob env j ve "E300") with
              | error ve2 => rw [hv2] at hres; exact Except.noConfusion hres
              | ok fj =>
                  obtain ⟨-, rfl⟩ := ProcessingJob.valid_of_validate_eq_ok hv2
                  rw [hv2] at hres
                  simp only [Except.ok.injEq] at hres
                  subst hres
                  exact ⟨Or.inr rfl, rfl, rfl, rfl, rfl⟩
          | ok fj =>
              obtain ⟨-, rfl⟩ := ProcessingJob.valid_of_validate_eq_ok hv
              rw [hv] at hres
              simp only [Except.ok.injEq] at hres
              subst hres
              exact ⟨Or.inl rfl, rfl, rfl, rfl, rfl⟩
  · simp only [hg] at hres
    cases hv : ProcessingJob.validate (failJob env j e "E300") with
    | error ve => rw [hv] at hres; exact Except.noConfusion hres
    | ok fj =>
        obtain ⟨-, rfl⟩ := ProcessingJob.valid_of_validate_eq_ok hv
        rw [hv] at hres
        simp only [Except.ok.injEq] at hres
        subst hres
        exact ⟨Or.inr rfl, rfl, rfl, rfl, rfl⟩

/-- When the graph completes with a truthy recorded error, the workflow
returns exactly the E301 failure snapshot of the original job. -/
theorem execute_workflow_error_flag {cfg : AIConfig} {env : RunEnv} {c : Collaborators}
    {ev : WebhookEvent} {j : ProcessingJob} {fs : WorkflowState} {e : String}
    (hv : j.Valid = true) (ht : j.started_at < env.fail_at)
    (hg : (runGraph cfg env c ev j).res = Except.ok fs)
    (herr : fs.error = some e) (hne : e ≠ "") :
    (execute_workflow cfg env c ev j).result = Except.ok (failJob env j e "E301") := by
  have hok : ProcessingJob.validate (failJob env j e "E301") =
      Except.ok (failJob env j e "E301") :=
    ProcessingJob.validate_eq_ok_of_valid (failJob_valid hv ht hne)
  unfold execute_workflow
  simp only [hg, herr, if_neg hne, hok]

/-- When an exception with a non-empty message escapes the graph, the
workflow returns exactly the E300 failure snapshot of the original job. -/
theorem execute_workflow_exception {cfg : AIConfig} {env : RunEnv} {c : Collaborators}
    {ev : WebhookEvent} {j : ProcessingJob} {e : String}
    (hv : j.Valid = true) (ht : j.started_at < env.fail_at) (hne : e ≠ "")
    (hg : (runGraph cfg env c ev j).res = Except.error e) :
    (execute_workflow cfg env c ev j).result = Except.ok (failJob env j e "E300") := by
  have hok : ProcessingJob.validate (failJob env j e "E300") =
      Except.ok (failJob env j e "E300") :=
    ProcessingJob.validate_eq_ok_of_valid (failJob_valid hv ht hne)
  unfold execute_workflow
  simp only [hg, hok]

/-- A completed graph run's final job is the three-stage update chain. -/
theorem runGraph_res_ok_job {cfg : AIConfig} {env : RunEnv} {c : Collaborators}
    {ev : WebhookEvent} {j : ProcessingJob} {fs : WorkflowState}
    (hg : (runGraph cfg env c ev j).res = Except.ok fs) :
    fs.job = finalizeUpdate env (commitUpdate (receiveUpdate j)) := by
  rcases runGraph_cases cfg env c ev j with ⟨fs', hg', hjob, -⟩ | ⟨⟨e, hg'⟩, -⟩
  · rw [hg] at hg'
    cases hg'
    exact hjob
  · rw [hg'] at hg
    exact Except.noConfusion hg

/-- Every snapshot recorded by a graph run is one of the three stage
updates of the input job. -/
theorem runGraph_jobs_inv {cfg : AIConfig} {env : RunEnv} {c : Collaborators}
    {ev : WebhookEvent} {j : ProcessingJob} :
    ∀ jb ∈ (runGraph cfg env c ev j).jobs,
      jb = receiveUpdate j ∨ jb = commitUpdate (receiveUpdate j) ∨
      jb = finalizeUpdate env (commitUpdate (receiveUpdate j)) := by
  intro jb hjb
  rcases runGraph_cases cfg env c ev j with ⟨fs, -, -, hjobs⟩ | ⟨-, hjobs | hjobs | hjobs⟩ <;>
    rw [hjobs] at hjb <;> simp at hjb <;> tauto

/-- Every snapshot recorded by `execute_workflow` is a graph snapshot or
one of the failure snapshots of the original job. -/
theorem execute_workflow_jobs_sub {cfg : AIConfig} {env : RunEnv} {c : Collaborators}
    {ev : WebhookEvent} {j : ProcessingJob} :
    ∀ jb ∈ (execute_workflow cfg env c ev j).jobs,
      jb ∈ (runGraph cfg env c ev j).jobs ∨ ∃ e code, jb = failJob env j e code := by
  intro jb hjb
  unfold execute_workflow at hjb
  cases hg : (runGraph cfg env c ev j).res with
  | error e =>
      simp only [hg] at hjb
      cases hv : ProcessingJob.validate (failJob env j e "E300") with
      | error ve =>
          rw [hv] at hjb
          exact Or.inl hjb
      | ok fj =>
          obtain ⟨-, rfl⟩ := ProcessingJob.valid_of_validate_eq_ok hv
          rw [hv] at hjb
          simp only [List.mem_append, List.mem_singleton] at hjb
          rcases hjb with h | rfl
          · exact Or.inl h
          · exact Or.inr ⟨e, "E300", rfl⟩
  | ok fs =>
      simp only [hg] at hjb
      cases herr : fs.error with
      | none =>
          simp only [herr] at hjb
          exact Or.inl hjb
      | some e =>
          simp only [herr] at hjb
          by_cases he : e = ""
          · rw [if_pos he] at hjb
            exact Or.inl hjb
          · rw [if_neg he] at hjb
            cases hv : ProcessingJob.validate (failJob env j e "E301") with
            | error ve =>
                simp only [hv] at hjb
                cases hv2 : ProcessingJob.validate (failJob env j ve "E300") with
                | error ve2 =>
                    rw [hv2] at hjb
                    exact Or.inl hjb
                | ok fj =>
                    obtain ⟨-, rfl⟩ := ProcessingJob.valid_of_validate_eq_ok hv2
                    rw [hv2] at hjb
                    simp only [List.mem_append, List.mem_singleton] at hjb
                    rcases hjb with h | rfl
                    · exact Or.inl h
                    · exact Or.inr ⟨ve, "E300", rfl⟩
            | ok fj =>
                obtain ⟨-, rfl⟩ := ProcessingJob.valid_of_validate_eq_ok hv
                rw [hv] at hjb
                simp only [List.mem_append, List.mem_singleton] at hjb
                rcases hjb with h | rfl
                · exact Or.inl h
                · exact Or.inr ⟨e, "E301", rfl⟩

/-- Every job returned by `execute_workflow` is the completed three-stage
update or one of the failure snapshots of the original job. -/
theorem execute_workflow_result_inv {cfg : AIConfig} {env : RunEnv} {c : Collaborators}
    {ev : WebhookEvent} {j jf : ProcessingJob}
    (hres : (execute_workflow cfg env c ev j).result = Except.ok jf) :
    jf = finalizeUpdate env (commitUpdate (receiveUpdate j)) ∨
    ∃ e, jf = failJob env j e "E301" ∨ jf = failJob env j e "E300" := by
  unfold execute_workflow at hres
  cases hg : (runGraph cfg env c ev j).res with
  | error e =>
      simp only [hg] at hres
      cases hv : ProcessingJob.validate (failJob env j e "E300") with
      | error ve => rw [hv] at hres; exact Except.noConfusion hres
      | ok fj =>
          obtain ⟨-, rfl⟩ := ProcessingJob.valid_of_validate_eq_ok hv
          rw [hv] at hres
          simp only [Except.ok.injEq] at hres
          exact Or.inr ⟨e, Or.inr hres.symm⟩
  | ok fs =>
      simp only [hg] at hres
      cases herr : fs.error with
      | none =>
          simp only [herr] at hres
          simp only [Except.ok.injEq] at hres
          exact Or.inl (hres ▸ runGraph_res_ok_job hg)
      | some e =>
          simp only [herr] at hres
          by_cases he : e = ""
          · rw [if_pos he] at hres
            simp only [Except.ok.injEq] at hres
            exact Or.inl (hres ▸ runGraph_res_ok_job hg)
          · rw [if_neg he] at hres
            cases hv : ProcessingJob.validate (failJob env j e "E301") with
            | error ve =>
                simp only [hv] at hres
                cases hv2 : ProcessingJob.validate (failJob env j ve "E300") with
                | error ve2 => rw [hv2] at hres; exact Except.noConfusion hres
                | ok fj =>
                    obtain ⟨-, rfl⟩ := ProcessingJob.valid_of_validate_eq_ok hv2
                    rw [hv2] at hres
                    simp only [Except.ok.injEq] at hres
                    exact Or.inr ⟨ve, Or.inr hres.symm⟩
            | ok fj =>
                obtain ⟨-, rfl⟩ := ProcessingJob.valid_of_validate_eq_ok hv
                rw [hv] at hres
                simp only [Except.ok.injEq] at hres
                exact Or.inr ⟨e, Or.inl hres.symm⟩

theorem clampedDelay_of_lt {delays : List Int} {a : Nat} (h : a < delays.length) :
    clampedDelay delays a = some (delays.getD a 0) := by
  unfold clampedDelay
  rw [if_pos h, List.getD_eq_getElem?_getD]
  cases hq : delays.get? a with
  | none => exact absurd (List.get?_eq_none.mp hq) (by omega)
  | some v => rw [← List.get?_eq_getElem?, hq]; rfl

theorem clampedDelay_eq_some {delays : List Int} (h : delays ≠ []) (a : Nat) :
    clampedDelay delays a = some (clampedVal delays a) := by
  by_cases hl : a < delays.length
  · rw [clampedDelay_of_lt hl]
    unfold clampedVal
    rw [if_pos hl]
  · unfold clampedDelay clampedVal
    rw [if_neg hl, if_neg hl]
    cases hq : delays.getLast? with
    | none =>
        have hs : delays.getLast?.isSome := List.getLast?_isSome.mpr h
        rw [hq] at hs
        exact Bool.noConfusion hs
    | some v => rfl

theorem range_map_shift {α : Type} (g : Nat → α) (n a : Nat) :
    (List.range (n + 1)).map (fun i => g (a + i)) =
      g a :: (List.range n).map (fun i => g (a + 1 + i)) := by
  rw [List.range_succ_eq_map, List.map_cons, List.map_map]
  simp only [Nat.add_zero]
  refine congrArg (List.cons (g a)) (List.map_congr_left (fun i _ => ?_))
  simp only [Function.comp_apply]
  congr 1
  omega

/-- Behaviour of the retry loop when every attempted generation fails with
an `AIGenerationError` (message `m i` on attempt `i`): the loop performs
all `k` attempts, sleeps the clamped configured delay after each non-final
failed attempt, rebuilds the job with `retry_count = attempt + 1` and
`last_retry_at = now` after every failed attempt, and finally re-raises
the last error.  Only a non-empty configured delay list is required: past
its end the sleep is clamped to the last configured delay, while the
attempts (and `retry_count`) keep going up to the attempt budget. -/
theorem generateWithRetriesAux_allGenFail (cfg : AIConfig) (env : RunEnv)
    (c : Collaborators) (ev : WebhookEvent) (ctx : List ContextDoc) (corr : String)
    (rt : Nat → Int) (m : Nat → String) :
    ∀ (k a : Nat) (job : ProcessingJob),
      0 < k →
      (∀ i, a ≤ i → i < a + k → c.llm_generate i = LLMOutcome.raised (m i)) →
      a + k ≤ 3 →
      cfg.retry_delays ≠ [] →
      job.idempotency_key.length = 64 →
      job.status ≠ JobStatus.FAILED →
      ∀ le,
      (generateWithRetriesAux cfg env c ev ctx corr rt a job k le).result =
          Except.error (GenExn.genError ("AI generation failed: " ++ m (a + k - 1))) ∧
      (generateWithRetriesAux cfg env c ev ctx corr rt a job k le).sleeps =
          (List.range (k - 1)).map (fun i => clampedVal cfg.retry_delays (a + i)) ∧
      (generateWithRetriesAux cfg env c ev ctx corr rt a job k le).jobs.map
          (fun jb => jb.retry_count) = (List.range k).map (fun i => a + i + 1) ∧
      (generateWithRetriesAux cfg env c ev ctx corr rt a job k le).jobs.map
          (fun jb => jb.last_retry_at) = (List.range k).map (fun i => some (rt (a + i))) ∧
      (generateWithRetriesAux cfg env c ev ctx corr rt a job k le).llmCalls = k := by
  intro k
  induction k with
  | zero => intro a job h0; exact absurd h0 (by simp)
  | succ n ih =>
      intro a job _h0 hfail h3 hne hkey hst le
      have hgen : generate_test_cases cfg env c ev ctx corr a =
          Except.error (GenExn.genError ("AI generation failed: " ++ m a)) := by
        unfold generate_test_cases
        rw [hfail a (Nat.le_refl a) (by omega)]
      have hval : ProcessingJob.validate (retryUpdate job a (rt a)) =
          Except.ok (retryUpdate job a (rt a)) :=
        ProcessingJob.validate_eq_ok_of_valid (retryUpdate_valid hkey hst (by omega))
      cases n with
      | zero =>
          simp only [generateWithRetriesAux, hgen, hval]
          refine ⟨?_, ?_, ?_, ?_, ?_⟩ <;> simp [retryUpdate, List.range_succ]
      | succ n' =>
          have hrec := ih (a + 1) (retryUpdate job a (rt a)) (by omega)
            (fun i h1 h2 => hfail i (by omega) (by omega))
            (by omega) hne hkey hst
            (some (GenExn.genError ("AI generation failed: " ++ m a)))
          obtain ⟨hr1, hr2, hr3, hr4, hr5⟩ := hrec
          have hdelay : clampedDelay cfg.retry_delays a = some (clampedVal cfg.retry_delays a) :=
            clampedDelay_eq_some hne a
          simp only [generateWithRetriesAux, hgen, hval, hdelay, Nat.succ_ne_zero, if_false]
          simp only [generateWithRetriesAux] at hr1 hr2 hr3 hr4 hr5
          refine ⟨?_, ?_, ?_, ?_, ?_⟩
      -- result: the recursive call surfaces the last error
          · rw [hr1]
            have hidx : a + 1 + (n' + 1) - 1 = a + (n' + 1 + 1) - 1 := by omega
            rw [hidx]
      -- sleeps: the configured delay, then the recursive sleeps
          · have hshift := range_map_shift (fun t => clampedVal cfg.retry_delays t) (n' + 1 - 1) a
            simp only [] at hshift
            simp only [Nat.add_sub_cancel] at hr2 hshift ⊢
            rw [hr2, hshift]
      -- retry counts: attempt + 1, then the recursive counts
          · have hshift := range_map_shift (fun t => t + 1) (n' + 1) a
            simp only [] at hshift
            rw [List.map_cons, hr3, hshift]
            simp [retryUpdate]
      -- last_retry_at: now of this attempt, then the recursive instants
          · have hshift := range_map_shift (fun t => some (rt t)) (n' + 1) a
            simp only [] at hshift
            rw [List.map_cons, hr4, hshift]
            simp [retryUpdate]
      -- one LLM call per attempt
          · rw [hr5]

/-- A 64-character idempotency key (SHA-256 hex digests have length 64). -/
def exKey : String := String.mk (List.replicate 64 'a')

/-- A freshly arrived job: PENDING at RECEIVE with the default retry
configuration, as built by the dispatcher before `execute_workflow`. -/
def exJob : ProcessingJob :=
  { job_id := "job-1", webhook_event_id := "evt-1", status := JobStatus.PENDING,
    started_at := 0, completed_at := none, error_message := none, error_code := none,
    retry_count := 0, retry_delays := [5, 15, 45], last_retry_at := none,
    idempotency_key := exKey, current_stage := WorkflowStage.RECEIVE,
    correlation_id := "corr-1" }

/-- Concrete run instants (all after `started_at = 0`). -/
def exEnv : RunEnv := { doc_id := "doc-1", gen_at := 1, finalize_at := 10, fail_at := 20 }

/-- A concrete validated webhook event. -/
def exEv : WebhookEvent :=
  { issue_number := 42, issue_title := "Add authentication",
    issue_body := "Implement OAuth2", repository := "owner/repo" }

/-- Collaborators that all succeed (the LLM returns well-formed Markdown). -/
def exOk : Collaborators :=
  { generate_embedding := Except.ok (), query_similar := Except.ok none,
    llm_generate := fun _ => LLMOutcome.ok ("# Test Cases" ++ "\n" ++ "body"),
    get_repo := Except.ok "main", get_branch_sha := Except.ok "sha",
    create_branch := Except.ok (), create_or_update_file := Except.ok (),
    create_pull_request :=
      Except.ok { number := 123, html_url := "https://github.com/owner/repo/pull/123" },
    add_issue_comment := Except.ok () }

/-- The vector DB query raises. -/
def exRetrieveFail : Collaborators := { exOk with query_similar := Except.error "vector db down" }

/-- `create_branch` raises a branch-exists conflict (the COMMIT scenario). -/
def exBranchExists : Collaborators :=
  { exOk with create_branch := Except.error "Branch test-cases/issue-42 already exists" }

/-- `create_branch` raises an exception whose `str` is empty. -/
def exBranchEmptyExn : Collaborators := { exOk with create_branch := Except.error "" }

/-- The LLM fails on the first two calls and would succeed on the third. -/
def exGenFailTwice : Collaborators :=
  { exOk with llm_generate := fun n =>
      if n < 2 then LLMOutcome.raised ("llm fail " ++ toString n)
      else LLMOutcome.ok ("# Test Cases" ++ "\n" ++ "body") }

/-- The LLM call always exceeds its timeout. -/
def exAlwaysTimeout : Collaborators :=
  { exOk with llm_generate := fun _ => LLMOutcome.timedOut }

/-- The LLM call always raises a generation error. -/
def exAlwaysGenFail : Collaborators :=
  { exOk with llm_generate := fun n => LLMOutcome.raised ("llm fail " ++ toString n) }

/-- Retry instants for the concrete runs. -/
def exRt : Nat → Int := fun n => 100 + n

/-- A concrete valid generated document (before any PR is attached). -/
def exDoc : TestCaseDocument :=
  { document_id := "doc-1", issue_number := 42, title := "Test Cases: Add authentication",
    content := "# Test Cases" ++ "\n" ++ "body",
    metadata := ["issue", "generated_at", "ai_model", "context_sources"],
    branch_name := "test-cases/issue-42", pr_number := none, pr_url := none,
    generated_at := 1, ai_model := "llama-3.2-11b", context_sources := [],
    correlation_id := "corr-1" }

/-- A FAILED job carrying an `error_message` but no `error_code`. -/
def exFailedNoCode : ProcessingJob :=
  { exJob with
    status := JobStatus.FAILED
    completed_at := some 5
    error_message := some "boom"
    error_code := none }

/-- A PROCESSING job carrying both error fields. -/
def exProcessingWithError : ProcessingJob :=
  { exJob with
    status := JobStatus.PROCESSING
    error_message := some "stale"
    error_code := some "E301" }

/-- A FAILED job with no `error_message` at all. -/
def exFailedNoMessage : ProcessingJob :=
  { exJob with status := JobStatus.FAILED, completed_at := some 5 }

/-- The E300 failure snapshot of the branch-exists scenario. -/
def exBranchExistsFailed : ProcessingJob :=
  failJob exEnv exJob "Branch test-cases/issue-42 already exists" "E300"

/-- C1 (corrected): a stage failure does yield exactly one terminal FAILED
job with `completed_at` set to the failure time and the retry fields
carried through, but its `error_code` is the fixed generic `E301` (recorded
error) or `E300` (escaped exception) — never the originating error's
classification — and its `current_stage` is the stage the job entered the
pipeline with (the original argument job's stage), not the stage at which
the failure occurred. -/
theorem claim_C1_terminal_failure_snapshot (cfg : AIConfig) (env : RunEnv)
    (c : Collaborators) (ev : WebhookEvent) (j jf : ProcessingJob)
    (hres : (execute_workflow cfg env c ev j).result = Except.ok jf)
    (hfail : jf.status = JobStatus.FAILED) :
    jf.completed_at = some env.fail_at ∧
    (jf.error_code = some "E301" ∨ jf.error_code = some "E300") ∧
    jf.current_stage = j.current_stage ∧
    jf.retry_count = j.retry_count ∧
    jf.retry_delays = j.retry_delays := by
  obtain ⟨h1, h2, h3, h4, h5⟩ := execute_workflow_failed_shape hres hfail
  exact ⟨h3, h1, h2, h4, h5⟩

/-- C1 counterexample: in the spec's own COMMIT scenario (`create_branch`
raises "already exists"), the terminal job's `current_stage` is RECEIVE,
not COMMIT, and its `error_code` is the generic `E300`, not a GitHub-class
code such as `E402`. -/
theorem claim_C1_counterexample :
    (execute_workflow defaultConfig exEnv exBranchExists exEv exJob).result =
        Except.ok exBranchExistsFailed ∧
    exBranchExistsFailed.status = JobStatus.FAILED ∧
    exBranchExistsFailed.current_stage = WorkflowStage.RECEIVE ∧
    exBranchExistsFailed.current_stage ≠ WorkflowStage.COMMIT ∧
    exBranchExistsFailed.error_code = some "E300" ∧
    exBranchExistsFailed.error_code ≠ some "E402" := by
  exact ⟨by decide, rfl, rfl, by decide, rfl, by decide⟩

/-- C1 witness: the amended theorem applied to the concrete branch-exists
run. -/
theorem claim_C1_witness :
    exBranchExistsFailed.completed_at = some exEnv.fail_at ∧
    (exBranchExistsFailed.error_code = some "E301" ∨
      exBranchExistsFailed.error_code = some "E300") ∧
    exBranchExistsFailed.current_stage = exJob.current_stage ∧
    exBranchExistsFailed.retry_count = exJob.retry_count ∧
    exBranchExistsFailed.retry_delays = exJob.retry_delays :=
  claim_C1_terminal_failure_snapshot defaultConfig exEnv exBranchExists exEv exJob
    exBranchExistsFailed (by decide) (by decide)

/-- C2 (corrected): for every exception that escapes graph execution with a
non-empty message, and a failure instant after `started_at`,
`execute_workflow` returns the terminal FAILED job with the generic code
`E300` and the exception's message; but (see the counterexample) an
exception whose string form is empty makes the failure-snapshot
construction itself raise, escaping to the caller. -/
theorem claim_C2_exception_to_failed_job (cfg : AIConfig) (env : RunEnv)
    (c : Collaborators) (ev : WebhookEvent) (j : ProcessingJob) (e : String)
    (hv : j.Valid = true) (ht : j.started_at < env.fail_at) (hne : e ≠ "")
    (hg : (runGraph cfg env c ev j).res = Except.error e) :
    (execute_workflow cfg env c ev j).result = Except.ok (failJob env j e "E300") ∧
    (failJob env j e "E300").status = JobStatus.FAILED ∧
    (failJob env j e "E300").error_code = some "E300" ∧
    (failJob env j e "E300").error_message = some e :=
  ⟨execute_workflow_exception hv ht hne hg, rfl, rfl, rfl⟩

/-- C2 counterexample: when `create_branch` raises an exception whose `str`
is empty, `execute_workflow` does not return a `ProcessingJob` at all — the
`ValidationError` raised while constructing the FAILED snapshot escapes to
the caller. -/
theorem claim_C2_counterexample :
    (execute_workflow defaultConfig exEnv exBranchEmptyExn exEv exJob).result =
      Except.error "error_message is required when status is FAILED" := by
  decide

/-- C2 witness: the amended theorem applied to the concrete branch-exists
run. -/
theorem claim_C2_witness :
    (execute_workflow defaultConfig exEnv exBranchExists exEv exJob).result =
        Except.ok (failJob exEnv exJob "Branch test-cases/issue-42 already exists" "E300") ∧
    (failJob exEnv exJob "Branch test-cases/issue-42 already exists" "E300").status =
        JobStatus.FAILED ∧
    (failJob exEnv exJob "Branch test-cases/issue-42 already exists" "E300").error_code =
        some "E300" ∧
    (failJob exEnv exJob "Branch test-cases/issue-42 already exists" "E300").error_message =
        some "Branch test-cases/issue-42 already exists" :=
  claim_C2_exception_to_failed_job defaultConfig exEnv exBranchExists exEv exJob
    "Branch test-cases/issue-42 already exists" (by decide) (by decide) (by decide) (by decide)

/-- C3 (code_bug): a GENERATE timeout is not retried by the retry
sub-protocol.  With an always-timing-out LLM and `max_retries = 3`, the
loop makes exactly one LLM call, performs no backoff sleep, records no
retry snapshot, and raises `AITimeoutError` — because the loop catches only
`AIGenerationError`, of which `AITimeoutError` is not a subclass.  A
generation-class error under the same configuration is retried for all
three attempts. -/
theorem claim_C3_timeout_not_retried :
    (generate_with_retries defaultConfig exEnv exAlwaysTimeout exEv [] "corr-1" exRt exJob
        (some 3)).result = Except.error (GenExn.timeout 120) ∧
    (generate_with_retries defaultConfig exEnv exAlwaysTimeout exEv [] "corr-1" exRt exJob
        (some 3)).llmCalls = 1 ∧
    (generate_with_retries defaultConfig exEnv exAlwaysTimeout exEv [] "corr-1" exRt exJob
        (some 3)).sleeps = [] ∧
    (generate_with_retries defaultConfig exEnv exAlwaysTimeout exEv [] "corr-1" exRt exJob
        (some 3)).jobs = [] ∧
    (generate_with_retries defaultConfig exEnv exAlwaysGenFail exEv [] "corr-1" exRt exJob
        (some 3)).llmCalls = 3 := by
  exact ⟨by decide, by decide, by decide, by decide, by decide⟩

/-- The E300 failure snapshot of the generation-failure pipeline run (the
recorded generation error is even superseded by the COMMIT node's
`AttributeError` on the missing document). -/
def exGenFailTwiceFailed : ProcessingJob :=
  failJob exEnv exJob "AttributeError: NoneType object has no attribute branch_name" "E300"

/-- C5 (code_bug): with the default `max_retries = 3`,
`retry_delays = [5, 15, 45]`, and a generation client failing on the first
two calls and succeeding on the third, the pipeline does not produce a
COMPLETED job with `retry_count = 2`: `execute_workflow` makes exactly one
LLM call (the graph never invokes `generate_with_retries`) and returns a
FAILED job with `retry_count = 0`. -/
theorem claim_C5_pipeline_performs_no_generation_retry :
    (execute_workflow defaultConfig exEnv exGenFailTwice exEv exJob).result =
        Except.ok exGenFailTwiceFailed ∧
    exGenFailTwiceFailed.status = JobStatus.FAILED ∧
    exGenFailTwiceFailed.status ≠ JobStatus.COMPLETED ∧
    exGenFailTwiceFailed.retry_count = 0 ∧
    (execute_workflow defaultConfig exEnv exGenFailTwice exEv exJob).calls =
        [Call.embed, Call.query, Call.llm, Call.getRepo, Call.getBranch] ∧
    (execute_workflow defaultConfig exEnv exGenFailTwice exEv exJob).calls.count Call.llm = 1 := by
  exact ⟨by decide, rfl, by decide, rfl, by decide, by decide⟩

theorem range_map_zero_add {α : Type} (g : Nat → α) (n : Nat) :
    (List.range n).map (fun i => g (0 + i)) = (List.range n).map (fun i => g i) :=
  List.map_congr_left (fun i _ => by rw [Nat.zero_add])

/-- C4 (corrected): when every attempt fails with a generation-class
error, the loop sleeps between failed attempt `i` and attempt `i+1` for
`retry_delays[i]` while `i < len(retry_delays)` and for the last
configured delay (`retry_delays[-1]`) past the end, rebuilds the job
before each retry with `retry_count` incremented to `i+1` and
`last_retry_at` set to the handler's instant, and surfaces the last error
when all attempts fail; each snapshot's `retry_count` is bounded by the
attempt budget `retries` and by the model cap 3 — not by
`len(retry_delays)`, which it exceeds whenever the attempt budget does. -/
theorem claim_C4_generate_retry_protocol (cfg : AIConfig) (env : RunEnv)
    (c : Collaborators) (ev : WebhookEvent) (ctx : List ContextDoc) (corr : String)
    (rt : Nat → Int) (m : Nat → String) (j : ProcessingJob) (retries : Nat)
    (hpos : 0 < retries) (h3 : retries ≤ 3) (hne : cfg.retry_delays ≠ [])
    (hkey : j.idempotency_key.length = 64) (hst : j.status ≠ JobStatus.FAILED)
    (hrc : j.retry_count = 0)
    (hfail : ∀ i, i < retries → c.llm_generate i = LLMOutcome.raised (m i)) :
    (generate_with_retries cfg env c ev ctx corr rt j (some retries)).sleeps =
        (List.range (retries - 1)).map (fun i => clampedVal cfg.retry_delays i) ∧
    (generate_with_retries cfg env c ev ctx corr rt j (some retries)).jobs.map
        (fun jb => jb.retry_count) = (List.range retries).map (fun i => j.retry_count + i + 1) ∧
    (generate_with_retries cfg env c ev ctx corr rt j (some retries)).jobs.map
        (fun jb => jb.last_retry_at) = (List.range retries).map (fun i => some (rt i)) ∧
    (generate_with_retries cfg env c ev ctx corr rt j (some retries)).result =
        Except.error (GenExn.genError ("AI generation failed: " ++ m (retries - 1))) ∧
    (∀ jb ∈ (generate_with_retries cfg env c ev ctx corr rt j (some retries)).jobs,
        jb.retry_count ≤ retries ∧ jb.retry_count ≤ 3) := by
  obtain ⟨h1, h2, h3', h4, h5⟩ :=
    generateWithRetriesAux_allGenFail cfg env c ev ctx corr rt m retries 0 j
      hpos (fun i hp1 hp2 => hfail i (by omega)) (by omega) hne hkey hst none
  rw [show generate_with_retries cfg env c ev ctx corr rt j (some retries) =
      generateWithRetriesAux cfg env c ev ctx corr rt 0 j retries none from rfl]
  refine ⟨?_, ?_, ?_, ?_, ?_⟩
  · rw [h2]
    exact range_map_zero_add (fun t => clampedVal cfg.retry_delays t) (retries - 1)
  · rw [hrc, h3']
  · rw [h4]
    exact range_map_zero_add (fun t => some (rt t)) retries
  · rw [h1, Nat.zero_add]
  · intro jb hjb
    have hmem : jb.retry_count ∈
        (generateWithRetriesAux cfg env c ev ctx corr rt 0 j retries none).jobs.map
          (fun jb => jb.retry_count) := List.mem_map_of_mem _ hjb
    rw [h3'] at hmem
    obtain ⟨i, hi, hieq⟩ := List.mem_map.mp hmem
    have hiR := List.mem_range.mp hi
    exact ⟨by omega, by omega⟩

/-- C4 witness: the retry protocol at the default configuration
(`max_retries = 3`, `retry_delays = [5, 15, 45]`) with every attempt
failing: sleeps 5 then 15, snapshots with `retry_count` 1, 2, 3 and
`last_retry_at` set, and the last error surfaced. -/
theorem claim_C4_witness :
    (generate_with_retries defaultConfig exEnv exAlwaysGenFail exEv [] "corr-1" exRt exJob
        (some 3)).sleeps = [5, 15] ∧
    (generate_with_retries defaultConfig exEnv exAlwaysGenFail exEv [] "corr-1" exRt exJob
        (some 3)).jobs.map (fun jb => jb.retry_count) = [1, 2, 3] ∧
    (generate_with_retries defaultConfig exEnv exAlwaysGenFail exEv [] "corr-1" exRt exJob
        (some 3)).jobs.map (fun jb => jb.last_retry_at) = [some 100, some 101, some 102] ∧
    (generate_with_retries defaultConfig exEnv exAlwaysGenFail exEv [] "corr-1" exRt exJob
        (some 3)).result =
      Except.error (GenExn.genError ("AI generation failed: " ++ "llm fail 2")) := by
  have h := claim_C4_generate_retry_protocol defaultConfig exEnv exAlwaysGenFail exEv []
    "corr-1" exRt (fun n => "llm fail " ++ toString n) exJob 3
    (by decide) (by decide) (by decide) (by decide) (by decide) (by decide) (by decide)
  exact ⟨h.1.trans (by decide), h.2.1.trans (by decide), h.2.2.1.trans (by decide),
    h.2.2.2.1.trans (by decide)⟩

/-- A configuration with the default `MAX_RETRIES=3` but a single
configured backoff delay, `RETRY_DELAYS=[10]`. -/
def exShortDelaysConfig : AIConfig :=
  { timeout := 120, model_name := "llama-3.2-11b", max_retries := 3,
    retry_delays := [10] }

/-- C4 counterexample: with `RETRY_DELAYS=[10]` and three failing
attempts, the loop still performs all three attempts, sleeping the
clamped last delay `10` twice, and the rebuilt snapshots carry
`retry_count` 1, 2, 3 while `len(retry_delays) = 1` — so a snapshot's
`retry_count` exceeds `len(retry_delays)`, refuting that bound; the last
error is still the one surfaced. -/
theorem claim_C4_counterexample :
    (generate_with_retries exShortDelaysConfig exEnv exAlwaysGenFail exEv [] "corr-1" exRt
        exJob (some 3)).sleeps = [10, 10] ∧
    (generate_with_retries exShortDelaysConfig exEnv exAlwaysGenFail exEv [] "corr-1" exRt
        exJob (some 3)).jobs.map (fun jb => jb.retry_count) = [1, 2, 3] ∧
    exShortDelaysConfig.retry_delays.length = 1 ∧
    ((generate_with_retries exShortDelaysConfig exEnv exAlwaysGenFail exEv [] "corr-1" exRt
        exJob (some 3)).jobs.any
          (fun jb => decide (exShortDelaysConfig.retry_delays.length < jb.retry_count))) = true ∧
    (generate_with_retries exShortDelaysConfig exEnv exAlwaysGenFail exEv [] "corr-1" exRt
        exJob (some 3)).result =
      Except.error (GenExn.genError ("AI generation failed: " ++ "llm fail 2")) := by
  refine ⟨?_, ?_, ?_, ?_, ?_⟩ <;> decide

/-- C6 (corrected): on a retriever error (embedding succeeded, query
raised) the RETRIEVE node catches the exception, records its message, and
makes exactly one query (no retry at this layer); an empty result set is a
non-error outcome that stores zero context documents; GENERATE always makes
its single LLM call when reached; but the terminal job of a run whose graph
completed with a recorded error carries the generic `E301` — not a
vector-store classification. -/
theorem claim_C6_retrieve_stage_contract :
    (∀ (c : Collaborators) (s : WorkflowState) (m : String),
        c.generate_embedding = Except.ok () → c.query_similar = Except.error m →
        (retrieve_node c s).res = Except.ok { s with error := some m } ∧
        (retrieve_node c s).calls = [Call.embed, Call.query] ∧
        (retrieve_node c s).jobs = []) ∧
    (∀ (c : Collaborators) (s : WorkflowState) (r : Option ChromaResults),
        c.generate_embedding = Except.ok () → c.query_similar = Except.ok r →
        extractSimilarDocs r = [] →
        (retrieve_node c s).res = Except.ok { s with context := some [] } ∧
        (retrieve_node c s).calls = [Call.embed, Call.query]) ∧
    (∀ (cfg : AIConfig) (env : RunEnv) (c : Collaborators) (ev : WebhookEvent)
        (s : WorkflowState), (generate_node cfg env c ev s).calls = [Call.llm]) ∧
    (∀ (cfg : AIConfig) (env : RunEnv) (c : Collaborators) (ev : WebhookEvent)
        (j : ProcessingJob) (fs : WorkflowState) (e : String),
        j.Valid = true → j.started_at < env.fail_at →
        (runGraph cfg env c ev j).res = Except.ok fs → fs.error = some e → e ≠ "" →
        (execute_workflow cfg env c ev j).result = Except.ok (failJob env j e "E301") ∧
        (failJob env j e "E301").error_code = some "E301") := by
  refine ⟨?_, ?_, ?_, ?_⟩
  · intro c s m h1 h2
    simp only [retrieve_node, h1, h2]
    exact ⟨trivial, trivial, trivial⟩
  · intro c s r h1 h2 h3
    simp only [retrieve_node, h1, h2, h3]
    exact ⟨trivial, trivial⟩
  · intro cfg env c ev s
    exact (generate_node_shape cfg env c ev s).2.1
  · intro cfg env c ev j fs e hv ht hg herr hne
    exact ⟨execute_workflow_error_flag hv ht hg herr hne, rfl⟩

/-- C6 counterexample: with the vector DB raising "vector db down", the
terminal job's `error_code` is the generic `E301`, not the vector-store
class `E201` that `VectorDBQueryError` carries. -/
theorem claim_C6_counterexample :
    (execute_workflow defaultConfig exEnv exRetrieveFail exEv exJob).result =
        Except.ok (failJob exEnv exJob "vector db down" "E301") ∧
    (failJob exEnv exJob "vector db down" "E301").error_code = some "E301" ∧
    (failJob exEnv exJob "vector db down" "E301").error_code ≠ some "E201" := by
  exact ⟨by decide, rfl, by decide⟩

/-- The final graph state of the retrieve-failure run (the graph completes,
carrying the recorded error through the remaining stages). -/
def exC6FinalState : WorkflowState :=
  match (runGraph defaultConfig exEnv exRetrieveFail exEv exJob).res with
  | Except.ok s => s
  | Except.error _ => initialState exJob

/-- C6 witness: the amended contract applied at concrete runs. -/
theorem claim_C6_witness :
    ((retrieve_node exRetrieveFail (initialState exJob)).res =
        Except.ok { initialState exJob with error := some "vector db down" } ∧
      (retrieve_node exRetrieveFail (initialState exJob)).calls = [Call.embed, Call.query] ∧
      (retrieve_node exRetrieveFail (initialState exJob)).jobs = []) ∧
    ((retrieve_node exOk (initialState exJob)).res =
        Except.ok { initialState exJob with context := some [] } ∧
      (retrieve_node exOk (initialState exJob)).calls = [Call.embed, Call.query]) ∧
    (generate_node defaultConfig exEnv exOk exEv (initialState exJob)).calls = [Call.llm] ∧
    ((execute_workflow defaultConfig exEnv exRetrieveFail exEv exJob).result =
        Except.ok (failJob exEnv exJob "vector db down" "E301") ∧
      (failJob exEnv exJob "vector db down" "E301").error_code = some "E301") :=
  ⟨claim_C6_retrieve_stage_contract.1 exRetrieveFail (initialState exJob) "vector db down"
      (by decide) (by decide),
   claim_C6_retrieve_stage_contract.2.1 exOk (initialState exJob) none
      (by decide) (by decide) (by decide),
   claim_C6_retrieve_stage_contract.2.2.1 defaultConfig exEnv exOk exEv (initialState exJob),
   claim_C6_retrieve_stage_contract.2.2.2 defaultConfig exEnv exRetrieveFail exEv exJob
      exC6FinalState "vector db down" (by decide) (by decide) (by decide) (by decide) (by decide)⟩

/-- C7 (confirmed): for a valid job, the RECEIVE node cannot fail, makes no
collaborator call, and flips the job to PROCESSING at stage RETRIEVE; no
later node changes the status before the terminal transition: every
non-final snapshot of a graph run is PROCESSING, and a completed run's
final job is COMPLETED at FINALIZE. -/
theorem claim_C7_receive_and_status_monotonicity :
    (∀ s : WorkflowState, s.job.Valid = true →
        (receive_node s).res = Except.ok { s with job := receiveUpdate s.job } ∧
        (receive_node s).calls = [] ∧
        (receive_node s).jobs = [receiveUpdate s.job]) ∧
    (∀ j : ProcessingJob, (receiveUpdate j).status = JobStatus.PROCESSING ∧
        (receiveUpdate j).current_stage = WorkflowStage.RETRIEVE) ∧
    (∀ (cfg : AIConfig) (env : RunEnv) (c : Collaborators) (ev : WebhookEvent)
        (j : ProcessingJob),
        (∀ jb ∈ (runGraph cfg env c ev j).jobs.dropLast, jb.status = JobStatus.PROCESSING) ∧
        (∀ fs, (runGraph cfg env c ev j).res = Except.ok fs →
            fs.job.status = JobStatus.COMPLETED ∧
            fs.job.current_stage = WorkflowStage.FINALIZE)) := by
  refine ⟨?_, ?_, ?_⟩
  · intro s hv
    have hok := ProcessingJob.validate_eq_ok_of_valid (receiveUpdate_valid hv)
    unfold receive_node
    rw [hok]
    exact ⟨rfl, rfl, rfl⟩
  · intro j
    exact ⟨rfl, rfl⟩
  · intro cfg env c ev j
    constructor
    · intro jb hjb
      rcases runGraph_cases cfg env c ev j with ⟨fs, -, -, hjobs⟩ | ⟨-, hjobs | hjobs | hjobs⟩ <;>
        rw [hjobs] at hjb
      · rw [show ([receiveUpdate j, commitUpdate (receiveUpdate j),
            finalizeUpdate env (commitUpdate (receiveUpdate j))] : List ProcessingJob).dropLast =
            [receiveUpdate j, commitUpdate (receiveUpdate j)] from rfl] at hjb
        rcases List.mem_cons.mp hjb with rfl | hjb2
        · rfl
        · rcases List.mem_cons.mp hjb2 with rfl | hjb3
          · rfl
          · exact absurd hjb3 (List.not_mem_nil jb)
      · rw [show ([] : List ProcessingJob).dropLast = [] from rfl] at hjb
        exact absurd hjb (List.not_mem_nil jb)
      · rw [show ([receiveUpdate j] : List ProcessingJob).dropLast = [] from rfl] at hjb
        exact absurd hjb (List.not_mem_nil jb)
      · rw [show ([receiveUpdate j, commitUpdate (receiveUpdate j)] :
            List ProcessingJob).dropLast = [receiveUpdate j] from rfl] at hjb
        rcases List.mem_cons.mp hjb with rfl | hjb2
        · rfl
        · exact absurd hjb2 (List.not_mem_nil jb)
    · intro fs hres
      rw [runGraph_res_ok_job hres]
      exact ⟨rfl, rfl⟩

/-- The final graph state of the all-success run. -/
def exOkFinalState : WorkflowState :=
  match (runGraph defaultConfig exEnv exOk exEv exJob).res with
  | Except.ok s => s
  | Except.error _ => initialState exJob

/-- C7 witness: the contract applied at the concrete all-success run. -/
theorem claim_C7_witness :
    ((receive_node (initialState exJob)).res =
        Except.ok { initialState exJob with job := receiveUpdate exJob } ∧
      (receive_node (initialState exJob)).calls = [] ∧
      (receive_node (initialState exJob)).jobs = [receiveUpdate exJob]) ∧
    ((receiveUpdate exJob).status = JobStatus.PROCESSING ∧
      (receiveUpdate exJob).current_stage = WorkflowStage.RETRIEVE) ∧
    (receiveUpdate exJob).status = JobStatus.PROCESSING ∧
    (exOkFinalState.job.status = JobStatus.COMPLETED ∧
      exOkFinalState.job.current_stage = WorkflowStage.FINALIZE) :=
  ⟨claim_C7_receive_and_status_monotonicity.1 (initialState exJob) (by decide),
   claim_C7_receive_and_status_monotonicity.2.1 exJob,
   (claim_C7_receive_and_status_monotonicity.2.2 defaultConfig exEnv exOk exEv exJob).1
      (receiveUpdate exJob) (by decide),
   (claim_C7_receive_and_status_monotonicity.2.2 defaultConfig exEnv exOk exEv exJob).2
      exOkFinalState (by decide)⟩

/-- C8 (corrected): construction only enforces the `error_message` half of
the claimed invariant: a job accepted by validation with status FAILED
carries a non-empty `error_message`, and a FAILED job with a falsy
`error_message` is rejected; `error_code` is not required for FAILED jobs
and error fields on non-FAILED jobs are not rejected (see counterexample). -/
theorem claim_C8_error_fields_validation :
    (∀ j j' : ProcessingJob, ProcessingJob.validate j = Except.ok j' →
        j.status = JobStatus.FAILED →
        j.error_message ≠ none ∧ j.error_message ≠ some "") ∧
    (∀ j : ProcessingJob, j.status = JobStatus.FAILED →
        (j.error_message = none ∨ j.error_message = some "") →
        ∀ j', ProcessingJob.validate j ≠ Except.ok j') := by
  constructor
  · intro j j' h hst
    obtain ⟨hvalid, -⟩ := ProcessingJob.valid_of_validate_eq_ok h
    simp only [ProcessingJob.Valid, Bool.and_eq_true] at hvalid
    have h4 := hvalid.2
    cases hm : j.error_message with
    | none => simp [ProcessingJob.error_message_ok, hst, hm] at h4
    | some msg =>
        simp only [ProcessingJob.error_message_ok, hst, hm] at h4
        constructor
        · simp [hm]
        · simp only [hm, ne_eq, Option.some.injEq]
          simpa using h4
  · intro j hst hbad j' hok
    obtain ⟨hvalid, -⟩ := ProcessingJob.valid_of_validate_eq_ok hok
    simp only [ProcessingJob.Valid, Bool.and_eq_true] at hvalid
    have h4 := hvalid.2
    rcases hbad with hm | hm <;> simp [ProcessingJob.error_message_ok, hst, hm] at h4

/-- C8 counterexample: a FAILED job with `error_message` but no
`error_code` is accepted by construction, and a PROCESSING job carrying
both error fields is accepted too — refuting the claimed two-sided
`present iff FAILED` rejection. -/
theorem claim_C8_counterexample :
    ProcessingJob.validate exFailedNoCode = Except.ok exFailedNoCode ∧
    exFailedNoCode.status = JobStatus.FAILED ∧
    exFailedNoCode.error_code = none ∧
    ProcessingJob.validate exProcessingWithError = Except.ok exProcessingWithError ∧
    exProcessingWithError.status ≠ JobStatus.FAILED ∧
    exProcessingWithError.error_message = some "stale" ∧
    exProcessingWithError.error_code = some "E301" := by
  exact ⟨by decide, rfl, rfl, by decide, by decide, rfl, rfl⟩

/-- C8 witness: the amended validation rule applied to concrete jobs. -/
theorem claim_C8_witness :
    (exFailedNoCode.error_message ≠ none ∧ exFailedNoCode.error_message ≠ some "") ∧
    ProcessingJob.validate exFailedNoMessage ≠ Except.ok exFailedNoMessage :=
  ⟨claim_C8_error_fields_validation.1 exFailedNoCode exFailedNoCode (by decide) (by decide),
   claim_C8_error_fields_validation.2 exFailedNoMessage (by decide) (Or.inl (by decide))
      exFailedNoMessage⟩

/-- C9 (confirmed): a document accepted by construction has `pr_number` and
`pr_url` both null or both non-null; the GENERATE stage builds the document
with both unset, and the CREATE_PR replacement attaches both PR identifiers
together — so the invariant holds at every observed point. -/
theorem claim_C9_pr_fields_consistency :
    (∀ d d' : TestCaseDocument, TestCaseDocument.validate d = Except.ok d' →
        (d.pr_number = none ↔ d.pr_url = none)) ∧
    (∀ (d : TestCaseDocument) (pr : PullRequestInfo),
        (applyPrUpdate d pr).pr_number = some pr.number ∧
        (applyPrUpdate d pr).pr_url = some pr.html_url) ∧
    (∀ (cfg : AIConfig) (env : RunEnv) (ev : WebhookEvent) (content : String)
        (sources : List Nat) (corr : String),
        (generatedDocument cfg env ev content sources corr).pr_number = none ∧
        (generatedDocument cfg env ev content sources corr).pr_url = none) := by
  refine ⟨?_, ?_, ?_⟩
  · intro d d' h
    obtain ⟨hvalid, -⟩ := TestCaseDocument.doc_valid_of_validate_eq_ok h
    simp only [TestCaseDocument.Valid, Bool.and_eq_true] at hvalid
    have hc := hvalid.2
    cases hn : d.pr_number <;> cases hu : d.pr_url <;>
      simp [TestCaseDocument.pr_consistency_ok, hn, hu] at hc ⊢
  · intro d pr
    exact ⟨rfl, rfl⟩
  · intro cfg env ev content sources corr
    exact ⟨rfl, rfl⟩

/-- A concrete PR creation result. -/
def exPr : PullRequestInfo :=
  { number := 123, html_url := "https://github.com/owner/repo/pull/123" }

/-- C9 witness: the invariant applied at a concrete valid document and a
concrete PR attachment. -/
theorem claim_C9_witness :
    (exDoc.pr_number = none ↔ exDoc.pr_url = none) ∧
    ((applyPrUpdate exDoc exPr).pr_number = some 123 ∧
      (applyPrUpdate exDoc exPr).pr_url = some "https://github.com/owner/repo/pull/123") ∧
    ((generatedDocument defaultConfig exEnv exEv "# T x" [] "corr-1").pr_number = none ∧
      (generatedDocument defaultConfig exEnv exEv "# T x" [] "corr-1").pr_url = none) :=
  ⟨claim_C9_pr_fields_consistency.1 exDoc exDoc (by decide),
   claim_C9_pr_fields_consistency.2.1 exDoc exPr,
   claim_C9_pr_fields_consistency.2.2 defaultConfig exEnv exEv "# T x" [] "corr-1"⟩

/-- C10 (confirmed): every job snapshot produced by any stage transition or
failure path of the pipeline — and the returned job itself — preserves the
identity and provenance fields (`job_id`, `webhook_event_id`, `started_at`,
`idempotency_key`, `correlation_id`, `retry_delays`) of the input job. -/
theorem claim_C10_identity_fields_preserved (cfg : AIConfig) (env : RunEnv)
    (c : Collaborators) (ev : WebhookEvent) (j : ProcessingJob) :
    (∀ jb ∈ (execute_workflow cfg env c ev j).jobs, SameIdentity jb j) ∧
    (∀ jf, (execute_workflow cfg env c ev j).result = Except.ok jf → SameIdentity jf j) := by
  have id1 : SameIdentity (receiveUpdate j) j := receiveUpdate_sameIdentity j
  have id2 : SameIdentity (commitUpdate (receiveUpdate j)) j :=
    sameIdentity_trans (commitUpdate_sameIdentity (receiveUpdate j)) id1
  have id3 : SameIdentity (finalizeUpdate env (commitUpdate (receiveUpdate j))) j :=
    sameIdentity_trans (finalizeUpdate_sameIdentity env (commitUpdate (receiveUpdate j))) id2
  constructor
  · intro jb hjb
    rcases execute_workflow_jobs_sub jb hjb with hg | ⟨e, code, rfl⟩
    · rcases runGraph_jobs_inv jb hg with rfl | rfl | rfl
      · exact id1
      · exact id2
      · exact id3
    · exact failJob_sameIdentity env j e code
  · intro jf hres
    rcases execute_workflow_result_inv hres with rfl | ⟨e, rfl | rfl⟩
    · exact id3
    · exact failJob_sameIdentity env j e "E301"
    · exact failJob_sameIdentity env j e "E300"

/-- C10 witness: identity preservation at a concrete failing run (for both
a mid-run snapshot and the returned terminal job). -/
theorem claim_C10_witness :
    SameIdentity exBranchExistsFailed exJob ∧ SameIdentity (receiveUpdate exJob) exJob :=
  ⟨(claim_C10_identity_fields_preserved defaultConfig exEnv exBranchExists exEv exJob).2
      exBranchExistsFailed (by decide),
   (claim_C10_identity_fields_preserved defaultConfig exEnv exBranchExists exEv exJob).1
      (receiveUpdate exJob) (by decide)⟩
